import Mathlib

/-!
# Smart lending chaincode: a shallow embedding

Source: `chaincode_example06/SmartLendingChainCode.go`.

Modelling conventions.

* Go `int` is `Int`; the platform is taken to be 64-bit, and the one product
  that can leave the range (`Tenure * 12`) is wrapped with `wrapInt`.  The
  loop counters `i + 1` and `countOfMissedPayments++` are bounded by a slice
  length and cannot overflow.
* Go `float64` / `float32` are `ℚ` with exact arithmetic (`NaN` and the
  infinities are outside the model); `finalRateFloat` repeats the rate
  computation with explicit roundings and is shown to agree with it.
* Go `string` is `String`; `utf8.RuneCountInString` is `String.length`
  (a Lean string is a sequence of code points).
* `time.Time` is `Nat`, the zero time being `0`.
* The ledger, `math/rand` and the wall clock are explicit state.
* `strconv` and `encoding/json` are library code: they are the fields of a
  `Lib` value every handler takes as a parameter.
-/

namespace SmartLending

/-! ## Constants -/

def STATE_APPLIED : Int := 0
def STATE_QUOTATIONS_RECEIVED : Int := 1
def STATE_BID_ACCEPTED : Int := 2
def STATE_BID_REJECTED : Int := 3
def STATE_PERFORMING : Int := 4
def STATE_NON_PERFORMING : Int := 5

def LENDER_ACCEPT_APPLICATION : Int := 1
def LENDER_REJECT_APPLICATION : Int := 0

def STATE_NOT_DEMANDED : Int := 0
def STATE_DEMANDED : Int := 1
def STATE_RECOVERED : Int := 2
def STATE_MISSED : Int := 3

/-! ## Models -/

/-- Stand-in for `time.Time`; `0` is the zero time. -/
abbrev Time := Nat

structure EvaluationParams where
  ApplicationNumber : String := ""
  LoanAmount : ℚ := 0
  SSN : String := ""
  Age : Int := 0
  MonthlyIncome : ℚ := 0
  CreditScore : Int := 0
  Tenure : Int := 0
deriving DecidableEq

structure BiddingDetails where
  ApplicationNumber : String := ""
  BiddingNumber : Int := 0
  BiddingDate : Time := 0
  LenderId : Int := 0
  SanctionedAmount : ℚ := 0
  InterestType : String := ""
  InterestRate : ℚ := 0
  Tenure : Int := 0
  ApplicationAcceptStatus : Int := 0
  RejectionReason : String := ""
  IsWinningBid : Bool := false
deriving DecidableEq

structure TransactionMetadata where
  ApplicationState : Int := 0
  TransactionId : String := ""
  TransactionTimestamp : String := ""
  TransactionDate : Time := 0
  CallerMetadata : List Nat := []
deriving DecidableEq

structure PaymentDetail where
  InstallmentNumber : Int := 0
  PrincipalAmount : ℚ := 0
  InterestAmount : ℚ := 0
  TotalEMI : ℚ := 0
  RepaymentStatus : Int := 0
  RepaymentDate : String := ""
  Metadata : TransactionMetadata := {}
deriving DecidableEq

structure LoanApplication where
  ApplicationNumber : String := ""
  AccountNumber : Int := 0
  Make : String := ""
  Model : String := ""
  LoanAmount : ℚ := 0
  SSN : String := ""
  Age : Int := 0
  MonthlyIncome : ℚ := 0
  CreditScore : Int := 0
  Status : Int := 0
  Tenure : Int := 0
  Transactions : List TransactionMetadata := []
  Quotations : List BiddingDetails := []
  RepaymentSchedule : List PaymentDetail := []
deriving DecidableEq

/-! ## Process-global state: `math/rand` and the wall clock -/

/-- The generator behind `rand.Intn` and the clock behind `time.Now`, each a
stream together with the number of values already drawn. -/
structure Runtime where
  randSeq : Nat → Nat
  randPos : Nat
  clockSeq : Nat → Time
  clockPos : Nat

/-- Go `rand.Intn(n)`: the next value of the generator, in `[0, n)`. -/
def Runtime.Intn (rt : Runtime) (n : Nat) : Int × Runtime :=
  (((rt.randSeq rt.randPos % n : Nat) : Int), { rt with randPos := rt.randPos + 1 })

/-- Go `time.Now()`. -/
def Runtime.Now (rt : Runtime) : Time × Runtime :=
  (rt.clockSeq rt.clockPos, { rt with clockPos := rt.clockPos + 1 })

/-- Go `utf8.RuneCountInString`. -/
def RuneCountInString (s : String) : Int := (s.length : Int)

/-- Two's-complement wrap of an integer into the 64-bit `int` range. -/
def wrapInt (x : Int) : Int := (x + 2 ^ 63) % 2 ^ 64 - 2 ^ 63

/-! ## Identifier generation -/

def GenerateBiddingNumber (rt : Runtime) : Int × Runtime :=
  rt.Intn 100000

def GenerateAccountNumber (rt : Runtime) : Int × Runtime :=
  rt.Intn 100000

/-! ## Quote policies -/

def GetQuoteFromLender1 (evaluationParams : EvaluationParams) (rt : Runtime) :
    BiddingDetails × Runtime :=
  let bidDetails : BiddingDetails := { ApplicationNumber := evaluationParams.ApplicationNumber }
  if evaluationParams.CreditScore < 300 then
    ({ bidDetails with
        ApplicationAcceptStatus := LENDER_REJECT_APPLICATION
        RejectionReason := "Not meeting credit score requirements" }, rt)
  else if evaluationParams.Age < 18 then
    ({ bidDetails with
        ApplicationAcceptStatus := LENDER_REJECT_APPLICATION
        RejectionReason := "Not meeting age requirements" }, rt)
  else if RuneCountInString evaluationParams.SSN ≠ 7 then
    ({ bidDetails with
        ApplicationAcceptStatus := LENDER_REJECT_APPLICATION
        RejectionReason := "Invalid SSN" }, rt)
  else if evaluationParams.MonthlyIncome < 1000 then
    ({ bidDetails with
        ApplicationAcceptStatus := LENDER_REJECT_APPLICATION
        RejectionReason := "Not meeting monthly income requirements" }, rt)
  else
    let bn := GenerateBiddingNumber rt
    let now := bn.2.Now
    let baseRate : ℚ := 5
    let delta : ℚ := 0
    let delta :=
      if evaluationParams.CreditScore < 700 ∧ evaluationParams.CreditScore > 500 then
        delta + 1 / 4
      else if evaluationParams.CreditScore < 500 ∧ evaluationParams.CreditScore > 300 then
        delta + 1 / 2
      else delta
    let delta :=
      if evaluationParams.Age > 30 ∧ evaluationParams.Age < 50 then delta + 1 / 4
      else if evaluationParams.Age > 50 then delta + 1 / 2
      else delta
    let delta :=
      if evaluationParams.MonthlyIncome > 1000 ∧ evaluationParams.MonthlyIncome < 3000 then
        delta + 1 / 2
      else if evaluationParams.MonthlyIncome > 3000 then delta + 1 / 4
      else delta
    let finalRate := baseRate + delta
    ({ bidDetails with
        ApplicationAcceptStatus := LENDER_ACCEPT_APPLICATION
        BiddingNumber := bn.1
        BiddingDate := now.1
        LenderId := 1
        SanctionedAmount := evaluationParams.LoanAmount
        Tenure := evaluationParams.Tenure
        InterestType := "simple"
        InterestRate := finalRate
        IsWinningBid := false }, now.2)

def GetQuoteFromLender2 (evaluationParams : EvaluationParams) (rt : Runtime) :
    BiddingDetails × Runtime :=
  let bidDetails : BiddingDetails := { ApplicationNumber := evaluationParams.ApplicationNumber }
  if evaluationParams.CreditScore < 300 then
    ({ bidDetails with
        ApplicationAcceptStatus := LENDER_REJECT_APPLICATION
        RejectionReason := "Not meeting credit score requirements" }, rt)
  else if evaluationParams.Age < 18 then
    ({ bidDetails with
        ApplicationAcceptStatus := LENDER_REJECT_APPLICATION
        RejectionReason := "Not meeting age requirements" }, rt)
  else if RuneCountInString evaluationParams.SSN ≠ 7 then
    ({ bidDetails with
        ApplicationAcceptStatus := LENDER_REJECT_APPLICATION
        RejectionReason := "Invalid SSN" }, rt)
  else if evaluationParams.MonthlyIncome < 1000 then
    ({ bidDetails with
        ApplicationAcceptStatus := LENDER_REJECT_APPLICATION
        RejectionReason := "Not meeting monthly income requirements" }, rt)
  else
    let bn := GenerateBiddingNumber rt
    let now := bn.2.Now
    let baseRate : ℚ := 5
    let delta : ℚ := 0
    let delta :=
      if evaluationParams.CreditScore < 700 ∧ evaluationParams.CreditScore > 500 then
        delta + 1 / 4
      else if evaluationParams.CreditScore < 500 ∧ evaluationParams.CreditScore > 300 then
        delta + 1 / 2
      else delta
    let delta :=
      if evaluationParams.Age > 30 ∧ evaluationParams.Age < 50 then delta + 1 / 4
      else if evaluationParams.Age > 50 then delta + 1 / 2
      else delta
    let delta :=
      if evaluationParams.MonthlyIncome > 1000 ∧ evaluationParams.MonthlyIncome < 3000 then
        delta + 1 / 2
      else if evaluationParams.MonthlyIncome > 3000 then delta + 1 / 4
      else delta
    let finalRate := baseRate + delta
    ({ bidDetails with
        ApplicationAcceptStatus := LENDER_ACCEPT_APPLICATION
        BiddingNumber := bn.1
        BiddingDate := now.1
        LenderId := 2
        SanctionedAmount := evaluationParams.LoanAmount
        Tenure := evaluationParams.Tenure
        InterestType := "floating"
        InterestRate := finalRate
        IsWinningBid := false }, now.2)

def GetQuoteFromLender3 (evaluationParams : EvaluationParams) (rt : Runtime) :
    BiddingDetails × Runtime :=
  let bidDetails : BiddingDetails := { ApplicationNumber := evaluationParams.ApplicationNumber }
  if evaluationParams.CreditScore < 300 then
    ({ bidDetails with
        ApplicationAcceptStatus := LENDER_REJECT_APPLICATION
        RejectionReason := "Not meeting credit score requirements" }, rt)
  else if evaluationParams.Age < 18 then
    ({ bidDetails with
        ApplicationAcceptStatus := LENDER_REJECT_APPLICATION
        RejectionReason := "Not meeting age requirements" }, rt)
  else if RuneCountInString evaluationParams.SSN ≠ 7 then
    ({ bidDetails with
        ApplicationAcceptStatus := LENDER_REJECT_APPLICATION
        RejectionReason := "Invalid SSN" }, rt)
  else if evaluationParams.MonthlyIncome < 1000 then
    ({ bidDetails with
        ApplicationAcceptStatus := LENDER_REJECT_APPLICATION
        RejectionReason := "Not meeting monthly income requirements" }, rt)
  else
    let bn := GenerateBiddingNumber rt
    let now := bn.2.Now
    let baseRate : ℚ := 5
    let delta : ℚ := 0
    let delta :=
      if evaluationParams.CreditScore < 700 ∧ evaluationParams.CreditScore > 500 then
        delta + 1 / 4
      else if evaluationParams.CreditScore < 500 ∧ evaluationParams.CreditScore > 300 then
        delta + 1 / 2
      else delta
    let delta :=
      if evaluationParams.Age > 30 ∧ evaluationParams.Age < 50 then delta + 1 / 4
      else if evaluationParams.Age > 50 then delta + 1 / 2
      else delta
    let delta :=
      if evaluationParams.MonthlyIncome > 1000 ∧ evaluationParams.MonthlyIncome < 3000 then
        delta + 1 / 2
      else if evaluationParams.MonthlyIncome > 3000 then delta + 1 / 4
      else delta
    let finalRate := baseRate + delta
    ({ bidDetails with
        ApplicationAcceptStatus := LENDER_ACCEPT_APPLICATION
        BiddingNumber := bn.1
        BiddingDate := now.1
        LenderId := 3
        SanctionedAmount := evaluationParams.LoanAmount
        Tenure := evaluationParams.Tenure
        InterestType := "simple"
        InterestRate := finalRate
        IsWinningBid := false }, now.2)

def GetQuoteFromLender4 (evaluationParams : EvaluationParams) (rt : Runtime) :
    BiddingDetails × Runtime :=
  let bidDetails : BiddingDetails := { ApplicationNumber := evaluationParams.ApplicationNumber }
  if evaluationParams.CreditScore < 300 then
    ({ bidDetails with
        ApplicationAcceptStatus := LENDER_REJECT_APPLICATION
        RejectionReason := "Not meeting credit score requirements" }, rt)
  else if evaluationParams.Age < 18 then
    ({ bidDetails with
        ApplicationAcceptStatus := LENDER_REJECT_APPLICATION
        RejectionReason := "Not meeting age requirements" }, rt)
  else if RuneCountInString evaluationParams.SSN ≠ 7 then
    ({ bidDetails with
        ApplicationAcceptStatus := LENDER_REJECT_APPLICATION
        RejectionReason := "Invalid SSN" }, rt)
  else if evaluationParams.MonthlyIncome < 1000 then
    ({ bidDetails with
        ApplicationAcceptStatus := LENDER_REJECT_APPLICATION
        RejectionReason := "Not meeting monthly income requirements" }, rt)
  else
    let bn := GenerateBiddingNumber rt
    let now := bn.2.Now
    let baseRate : ℚ := 5
    let delta : ℚ := 0
    let delta :=
      if evaluationParams.CreditScore < 700 ∧ evaluationParams.CreditScore > 500 then
        delta + 1 / 4
      else if evaluationParams.CreditScore < 500 ∧ evaluationParams.CreditScore > 300 then
        delta + 1 / 2
      else delta
    let delta :=
      if evaluationParams.Age > 30 ∧ evaluationParams.Age < 50 then delta + 1 / 4
      else if evaluationParams.Age > 50 then delta + 1 / 2
      else delta
    let delta :=
      if evaluationParams.MonthlyIncome > 1000 ∧ evaluationParams.MonthlyIncome < 3000 then
        delta + 1 / 2
      else if evaluationParams.MonthlyIncome > 3000 then delta + 1 / 4
      else delta
    let finalRate := baseRate + delta
    ({ bidDetails with
        ApplicationAcceptStatus := LENDER_ACCEPT_APPLICATION
        BiddingNumber := bn.1
        BiddingDate := now.1
        LenderId := 4
        SanctionedAmount := evaluationParams.LoanAmount
        Tenure := evaluationParams.Tenure
        InterestType := "floating"
        InterestRate := finalRate
        IsWinningBid := false }, now.2)

/-- The four quote functions in the order `CreateLoanApplication` calls them;
index `k : Fin 4` is lender `k + 1`. -/
def lenderQuote (k : Fin 4) : EvaluationParams → Runtime → BiddingDetails × Runtime :=
  match k with
  | 0 => GetQuoteFromLender1
  | 1 => GetQuoteFromLender2
  | 2 => GetQuoteFromLender3
  | 3 => GetQuoteFromLender4

/-! ## Repayment scheduler and default monitor -/

/-- One pass of the body of the loop of `GenerateRepaymentSchedule`, for loop
counter `i`. -/
def installmentDetail (winningQuotation : BiddingDetails) (noOfInstallments : Int) (i : Int) :
    PaymentDetail :=
  let PrincipalAmount := winningQuotation.SanctionedAmount / (noOfInstallments : ℚ)
  let InterestAmount := (PrincipalAmount * winningQuotation.InterestRate) / (100 : ℚ)
  { InstallmentNumber := i + 1
    PrincipalAmount := PrincipalAmount
    InterestAmount := InterestAmount
    TotalEMI := PrincipalAmount + InterestAmount
    RepaymentStatus := STATE_DEMANDED }

/-- The loop `for i := 0; i < noOfInstallments; i++` of
`GenerateRepaymentSchedule`: `remaining` is the number of passes still to run,
`i` the loop counter and `repaymentSchedule` the slice built so far. -/
def scheduleLoop (winningQuotation : BiddingDetails) (noOfInstallments : Int) :
    Nat → Int → List PaymentDetail → List PaymentDetail
  | 0, _, repaymentSchedule => repaymentSchedule
  | remaining + 1, i, repaymentSchedule =>
    scheduleLoop winningQuotation noOfInstallments remaining (i + 1)
      (repaymentSchedule ++ [installmentDetail winningQuotation noOfInstallments i])

def GenerateRepaymentSchedule (winningQuotation : BiddingDetails) : List PaymentDetail :=
  let noOfInstallments := wrapInt (winningQuotation.Tenure * 12)
  scheduleLoop winningQuotation noOfInstallments noOfInstallments.toNat 0 []

/-- The counting loop of `CheckLoanDefaultStatus` over the remaining entries of
the schedule, `countOfMissedPayments` being the count so far. -/
def countMissedLoop : List PaymentDetail → Int → Int
  | [], countOfMissedPayments => countOfMissedPayments
  | p :: rest, countOfMissedPayments =>
    if p.RepaymentStatus = STATE_MISSED then countMissedLoop rest (countOfMissedPayments + 1)
    else countMissedLoop rest countOfMissedPayments

def CheckLoanDefaultStatus (applicationDetails : LoanApplication) : LoanApplication :=
  let countOfMissedPayments := countMissedLoop applicationDetails.RepaymentSchedule 0
  if countOfMissedPayments ≥ 3 then
    { applicationDetails with Status := STATE_NON_PERFORMING }
  else
    { applicationDetails with Status := STATE_PERFORMING }

/-! ## The ledger stub and the libraries -/

/-- The `shim.ChaincodeStubInterface` value of one invocation: the ledger
(`state`), the outcome of each `PutState` call yet to come (`putErr n` tells
whether the `n`-th call returns an error), and the invocation context. -/
structure Stub (β : Type) where
  state : String → Option β
  putErr : Nat → Bool
  putPos : Nat
  TxID : String
  TxTimestamp : Option String
  CallerMetadata : List Nat

/-- The stub call `GetState`: the stored bytes, `none` standing for `nil`. -/
def Stub.GetState {β : Type} (stub : Stub β) (key : String) : Option β :=
  stub.state key

/-- The stub call `PutState`: the flag tells whether an error is returned; a
failing call leaves the ledger as it was. -/
def Stub.PutState {β : Type} (stub : Stub β) (key : String) (value : β) : Bool × Stub β :=
  if stub.putErr stub.putPos then
    (true, { stub with putPos := stub.putPos + 1 })
  else
    (false, { stub with
                state := fun k => if k = key then some value else stub.state k
                putPos := stub.putPos + 1 })

/-- The library functions the handlers call: `strconv.Atoi`,
`strconv.ParseFloat(_, 64)` (value returned, error dropped as the handlers do),
`json.Marshal` and `json.Unmarshal` into a zero-valued record. -/
structure Lib (β : Type) where
  Atoi : String → Int
  ParseFloat : String → ℚ
  Marshal : LoanApplication → β
  Unmarshal : β → LoanApplication

/-- The record left in `var applicationDetails LoanApplication` by
`json.Unmarshal(bytes, &applicationDetails)`: `nil` bytes are a syntax error
and leave the zero value. -/
def Lib.decode {β : Type} (lib : Lib β) (bytes : Option β) : LoanApplication :=
  match bytes with
  | none => {}
  | some b => lib.Unmarshal b

/-- What a handler does: it panics (index out of range on its arguments) or
returns `(bytes, err)`. -/
inductive Outcome (β : Type) where
  | panic : Outcome β
  | ret (bytes : Option β) (err : Option String) : Outcome β

/-! ## Private functions -/

def GetTransactionMetadata {β : Type} (stub : Stub β) (rt : Runtime)
    (applicationDetails : LoanApplication) : TransactionMetadata × Runtime :=
  let now := rt.Now
  ({ ApplicationState := applicationDetails.Status
     TransactionId := stub.TxID
     TransactionDate := now.1
     TransactionTimestamp := stub.TxTimestamp.getD ""
     CallerMetadata := stub.CallerMetadata }, now.2)

def SaveApplicationDetails {β : Type} (lib : Lib β) (stub : Stub β) (rt : Runtime)
    (applicationDetails : LoanApplication) : LoanApplication × Stub β × Runtime :=
  let put1 := stub.PutState applicationDetails.ApplicationNumber (lib.Marshal applicationDetails)
  let upd : LoanApplication × Runtime :=
    if put1.1 = false then
      let metadata := GetTransactionMetadata put1.2 rt applicationDetails
      ({ applicationDetails with
          Transactions := applicationDetails.Transactions ++ [metadata.1] }, metadata.2)
    else (applicationDetails, rt)
  let put2 := put1.2.PutState upd.1.ApplicationNumber (lib.Marshal upd.1)
  (upd.1, put2.2, upd.2)

/-! ## Invoke functions -/

/-- Lines 178-210 of `CreateLoanApplication`: the record built, quoted and saved
once both guards have passed. -/
def createRecord {β : Type} (lib : Lib β) (stub : Stub β) (rt : Runtime)
    (applicationNumber make model a3 ssn a5 a6 a7 a8 : String) :
    LoanApplication × Stub β × Runtime :=
  let loanAmount := lib.ParseFloat a3
  let age := lib.Atoi a5
  let monthlyIncome := lib.ParseFloat a6
  let creditScore := lib.Atoi a7
  let loanTenure := lib.Atoi a8
  let applicationDetails : LoanApplication :=
    { ApplicationNumber := applicationNumber, Make := make, Model := model
      LoanAmount := loanAmount, SSN := ssn, Age := age, MonthlyIncome := monthlyIncome
      CreditScore := creditScore, Status := STATE_APPLIED }
  let saved := SaveApplicationDetails lib stub rt applicationDetails
  let evaluationParams : EvaluationParams :=
    { ApplicationNumber := applicationNumber, LoanAmount := loanAmount, SSN := ssn, Age := age
      MonthlyIncome := monthlyIncome, CreditScore := creditScore, Tenure := loanTenure }
  let quoteFromLender1 := GetQuoteFromLender1 evaluationParams saved.2.2
  let quoteFromLender2 := GetQuoteFromLender2 evaluationParams quoteFromLender1.2
  let quoteFromLender3 := GetQuoteFromLender3 evaluationParams quoteFromLender2.2
  let quoteFromLender4 := GetQuoteFromLender4 evaluationParams quoteFromLender3.2
  let quotes := [quoteFromLender1.1, quoteFromLender2.1, quoteFromLender3.1, quoteFromLender4.1]
  let applicationDetails : LoanApplication :=
    { saved.1 with Quotations := quotes, Status := STATE_QUOTATIONS_RECEIVED }
  SaveApplicationDetails lib saved.2.1 quoteFromLender4.2 applicationDetails

def CreateLoanApplication {β : Type} (lib : Lib β) (stub : Stub β) (rt : Runtime)
    (applicationArgs : List String) : Outcome β × Stub β × Runtime :=
  match applicationArgs with
  | [] => (Outcome.panic, stub, rt)
  | a0 :: rest =>
    if a0 = "" then
      (Outcome.ret none (some "Invalid application"), stub, rt)
    else
      match stub.GetState a0 with
      | some _ => (Outcome.ret none (some "Application already exist"), stub, rt)
      | none =>
        match rest with
        | make :: model :: a3 :: ssn :: a5 :: a6 :: a7 :: a8 :: _ =>
          let r := createRecord lib stub rt a0 make model a3 ssn a5 a6 a7 a8
          (Outcome.ret (some (lib.Marshal r.1)) none, r.2)
        | _ => (Outcome.panic, stub, rt)

/-- The loop of `ConfirmBid` over the quotations still to visit.  A pass only
touches the quotation it visits, the account number and the schedule, so the
state carried along is the pair of the latter two and the generator. -/
def confirmLoop (biddingNumber bidStatus : Int) :
    List BiddingDetails → Int × List PaymentDetail × Runtime →
      List BiddingDetails × Int × List PaymentDetail × Runtime
  | [], st => ([], st)
  | q :: rest, st =>
    if q.BiddingNumber = biddingNumber ∧ bidStatus = STATE_BID_ACCEPTED then
      let q1 : BiddingDetails := { q with IsWinningBid := true }
      let acct := GenerateAccountNumber st.2.2
      let r := confirmLoop biddingNumber bidStatus rest
        (acct.1, GenerateRepaymentSchedule q1, acct.2)
      (q1 :: r.1, r.2)
    else
      let r := confirmLoop biddingNumber bidStatus rest st
      (q :: r.1, r.2)

/-- The record `ConfirmBid` builds and saves for the stored bytes `bytes`. -/
def confirmBidRecord {β : Type} (lib : Lib β) (stub : Stub β) (rt : Runtime)
    (bytes : Option β) (biddingNumber bidStatus : Int) : LoanApplication × Stub β × Runtime :=
  let applicationDetails := lib.decode bytes
  let applicationDetails : LoanApplication := { applicationDetails with Status := bidStatus }
  let l := confirmLoop biddingNumber bidStatus applicationDetails.Quotations
    (applicationDetails.AccountNumber, applicationDetails.RepaymentSchedule, rt)
  let applicationDetails : LoanApplication :=
    { applicationDetails with
        Quotations := l.1, AccountNumber := l.2.1, RepaymentSchedule := l.2.2.1 }
  SaveApplicationDetails lib stub l.2.2.2 applicationDetails

def ConfirmBid {β : Type} (lib : Lib β) (stub : Stub β) (rt : Runtime)
    (applicationArgs : List String) : Outcome β × Stub β × Runtime :=
  match applicationArgs with
  | a0 :: a1 :: a2 :: _ =>
    let r := confirmBidRecord lib stub rt (stub.GetState a0) (lib.Atoi a1) (lib.Atoi a2)
    (Outcome.ret (some (lib.Marshal r.1)) none, r.2)
  | _ => (Outcome.panic, stub, rt)

/-- The loop of `ChangePaymentStatus` over the schedule entries still to
visit; it stops at the first entry with the given installment number. -/
def changeLoop {β : Type} (stub : Stub β) (installmentNumber repaymentStatus : Int) :
    List PaymentDetail → Runtime → List PaymentDetail × Runtime
  | [], rt => ([], rt)
  | p :: rest, rt =>
    if p.InstallmentNumber = installmentNumber then
      let now := rt.Now
      let metadata : TransactionMetadata :=
        { TransactionId := stub.TxID
          TransactionTimestamp := stub.TxTimestamp.getD ""
          CallerMetadata := stub.CallerMetadata
          TransactionDate := now.1 }
      ({ p with RepaymentStatus := repaymentStatus, Metadata := metadata } :: rest, now.2)
    else
      let r := changeLoop stub installmentNumber repaymentStatus rest rt
      (p :: r.1, r.2)

/-- The record `ChangePaymentStatus` builds and saves for the stored bytes. -/
def changePaymentStatusRecord {β : Type} (lib : Lib β) (stub : Stub β) (rt : Runtime)
    (bytes : Option β) (installmentNumber repaymentStatus : Int) :
    LoanApplication × Stub β × Runtime :=
  let applicationDetails := lib.decode bytes
  let l := changeLoop stub installmentNumber repaymentStatus applicationDetails.RepaymentSchedule rt
  let applicationDetails : LoanApplication := { applicationDetails with RepaymentSchedule := l.1 }
  let applicationDetails := CheckLoanDefaultStatus applicationDetails
  SaveApplicationDetails lib stub l.2 applicationDetails

def ChangePaymentStatus {β : Type} (lib : Lib β) (stub : Stub β) (rt : Runtime)
    (applicationArgs : List String) : Outcome β × Stub β × Runtime :=
  match applicationArgs with
  | applicationNumber :: _ :: a2 :: a3 :: _ =>
    let r := changePaymentStatusRecord lib stub rt (stub.GetState applicationNumber)
      (lib.Atoi a2) (lib.Atoi a3)
    (Outcome.ret (some (lib.Marshal r.1)) none, r.2)
  | _ => (Outcome.panic, stub, rt)

def GetLoanApplicationDetails {β : Type} (stub : Stub β) (applicationNumber : String) :
    Outcome β :=
  match stub.GetState applicationNumber with
  | none => Outcome.ret none (some "Could not find application")
  | some bytes => Outcome.ret (some bytes) none

def Invoke {β : Type} (lib : Lib β) (stub : Stub β) (rt : Runtime) (function : String)
    (args : List String) : Outcome β × Stub β × Runtime :=
  if function = "CreateLoanApplication" then
    CreateLoanApplication lib stub rt args
  else if function = "ConfirmBid" then
    ConfirmBid lib stub rt args
  else if function = "ChangePaymentStatus" then
    ChangePaymentStatus lib stub rt args
  else
    (Outcome.ret none (some "Invalid invoke function name"), stub, rt)

def Query {β : Type} (stub : Stub β) (rt : Runtime) (function : String) (args : List String) :
    Outcome β × Stub β × Runtime :=
  if function = "GetApplicationDetails" then
    match args with
    | a0 :: _ => (GetLoanApplicationDetails stub a0, stub, rt)
    | [] => (Outcome.panic, stub, rt)
  else
    (Outcome.ret none (some "No query functions"), stub, rt)

/-! ## The pricing rule as the specification words it -/

/-- Credit-score band delta of the specification: `(300,500)` gives `0.50`,
`(500,700)` gives `0.25`, anything else `0`. -/
def creditDelta (score : Int) : ℚ :=
  if 300 < score ∧ score < 500 then 1 / 2
  else if 500 < score ∧ score < 700 then 1 / 4
  else 0

/-- Age band delta of the specification: `(30,50)` gives `0.25`, above `50`
gives `0.50`, anything else `0`. -/
def ageDelta (age : Int) : ℚ :=
  if 30 < age ∧ age < 50 then 1 / 4
  else if 50 < age then 1 / 2
  else 0

/-- Income band delta of the specification: `(1000,3000)` gives `0.50`, above
`3000` gives `0.25`, anything else `0`. -/
def incomeDelta (income : ℚ) : ℚ :=
  if 1000 < income ∧ income < 3000 then 1 / 2
  else if 3000 < income then 1 / 4
  else 0

/-- Eligibility as the specification words it. -/
def Eligible (p : EvaluationParams) : Prop :=
  300 ≤ p.CreditScore ∧ 18 ≤ p.Age ∧ p.SSN.length = 7 ∧ 1000 ≤ p.MonthlyIncome

instance (p : EvaluationParams) : Decidable (Eligible p) := by
  unfold Eligible; infer_instance

/-- The rejection rules in the order the specification fixes, each with the
reason the reference configuration reports. -/
def rejectionRules : List ((EvaluationParams → Bool) × String) :=
  [ (fun p => decide (p.CreditScore < 300), "Not meeting credit score requirements"),
    (fun p => decide (p.Age < 18), "Not meeting age requirements"),
    (fun p => decide (p.SSN.length ≠ 7), "Invalid SSN"),
    (fun p => decide (p.MonthlyIncome < 1000), "Not meeting monthly income requirements") ]

/-- Reason of the first failing rule, if any rule fails. -/
def firstFailure (p : EvaluationParams) : Option String :=
  (rejectionRules.find? (fun r => r.1 p)).map (fun r => r.2)

/-- Interest-type label of lender `k + 1`: simple for odd ids, floating for
even ids. -/
def interestLabel (k : Fin 4) : String :=
  if (k.val + 1) % 2 = 1 then "simple" else "floating"

/-- A bid with, in the accepted case only, the lender id and the interest type
replaced by those of lender `k + 1`. -/
def relabel (k : Fin 4) (b : BiddingDetails) : BiddingDetails :=
  if b.ApplicationAcceptStatus = LENDER_ACCEPT_APPLICATION then
    { b with LenderId := ((k.val + 1 : Nat) : Int), InterestType := interestLabel k }
  else b

/-- The single parameterized policy of which the four quote functions are
instances. -/
def quotePolicy (lenderId : Int) (interestType : String) (p : EvaluationParams) (rt : Runtime) :
    BiddingDetails × Runtime :=
  if p.CreditScore < 300 then
    ({ ApplicationNumber := p.ApplicationNumber
       RejectionReason := "Not meeting credit score requirements" }, rt)
  else if p.Age < 18 then
    ({ ApplicationNumber := p.ApplicationNumber
       RejectionReason := "Not meeting age requirements" }, rt)
  else if p.SSN.length ≠ 7 then
    ({ ApplicationNumber := p.ApplicationNumber, RejectionReason := "Invalid SSN" }, rt)
  else if p.MonthlyIncome < 1000 then
    ({ ApplicationNumber := p.ApplicationNumber
       RejectionReason := "Not meeting monthly income requirements" }, rt)
  else
    ({ ApplicationNumber := p.ApplicationNumber
       ApplicationAcceptStatus := 1
       BiddingNumber := (GenerateBiddingNumber rt).1
       BiddingDate := (GenerateBiddingNumber rt).2.Now.1
       LenderId := lenderId
       SanctionedAmount := p.LoanAmount
       Tenure := p.Tenure
       InterestType := interestType
       InterestRate := 5 + (creditDelta p.CreditScore + ageDelta p.Age + incomeDelta p.MonthlyIncome)
       IsWinningBid := false }, (GenerateBiddingNumber rt).2.Now.2)

/-- A runtime used in examples: both streams count upwards. -/
def rt0 : Runtime := { randSeq := fun n => n + 7, randPos := 0, clockSeq := fun n => n + 1, clockPos := 0 }

/-- The installment the specification describes for position `j` (0-based) of
the schedule of quotation `q`: number `j + 1`, equal principal, flat interest,
status `DEMANDED`. -/
def specInstallment (q : BiddingDetails) (j : Nat) : PaymentDetail :=
  { InstallmentNumber := (j : Int) + 1
    PrincipalAmount := q.SanctionedAmount / ((q.Tenure * 12 : Int) : ℚ)
    InterestAmount := q.SanctionedAmount / ((q.Tenure * 12 : Int) : ℚ) * q.InterestRate / 100
    TotalEMI := q.SanctionedAmount / ((q.Tenure * 12 : Int) : ℚ) +
      q.SanctionedAmount / ((q.Tenure * 12 : Int) : ℚ) * q.InterestRate / 100
    RepaymentStatus := STATE_DEMANDED }

/-- An accepted quotation used in examples: 6000 over 5 years at 6.00. -/
def q5 : BiddingDetails :=
  { BiddingNumber := 7, LenderId := 1, SanctionedAmount := 6000, InterestType := "simple"
    InterestRate := 6, Tenure := 5, ApplicationAcceptStatus := 1 }

/-- Value of a string of decimal digits, `none` when a character is not a
digit or the string is empty. -/
def digitsValue : List Char → Option Nat
  | [] => none
  | cs => cs.foldl (fun acc c =>
      match acc with
      | none => none
      | some v => if c.isDigit then some (10 * v + (c.toNat - 48)) else none) (some 0)

/-- Clamp to the 64-bit `int` range, as `strconv.Atoi` does on a range error. -/
def clampInt (x : Int) : Int :=
  if x > 9223372036854775807 then 9223372036854775807
  else if x < -9223372036854775808 then -9223372036854775808
  else x

/-- A decimal `Atoi` for the examples: optional sign, decimal digits, `0` on a
syntax error, clamped on a range error. -/
def atoiDec (s : String) : Int :=
  match s.data with
  | '-' :: cs => clampInt (-(((digitsValue cs).getD 0 : Nat) : Int))
  | '+' :: cs => clampInt (((digitsValue cs).getD 0 : Nat) : Int)
  | cs => clampInt (((digitsValue cs).getD 0 : Nat) : Int)

/-- The library used in examples: decimal parsing of integers, and records
stored as they are (so that decoding inverts encoding). -/
def exampleLib : Lib LoanApplication :=
  { Atoi := atoiDec
    ParseFloat := fun s => ((atoiDec s : Int) : ℚ)
    Marshal := fun a => a
    Unmarshal := fun b => b }

/-- An empty ledger whose writes all succeed. -/
def stub0 : Stub LoanApplication :=
  { state := fun _ => none, putErr := fun _ => false, putPos := 0
    TxID := "tx-1", TxTimestamp := some "ts-1", CallerMetadata := [] }

/-- A ledger already holding a record under `APP-1`. -/
def stub1 : Stub LoanApplication :=
  { stub0 with
      state := fun k => if k = "APP-1" then some { ApplicationNumber := "APP-1" } else none }

/-- A quotation flagged as the winner when it carries bidding number `bn`. -/
def markWinner (bn : Int) (q : BiddingDetails) : BiddingDetails :=
  if q.BiddingNumber = bn then { q with IsWinningBid := true } else q

/-- The last quotation of the list carrying bidding number `bn`. -/
def lastMatch (bn : Int) (qs : List BiddingDetails) : Option BiddingDetails :=
  qs.reverse.find? (fun q => decide (q.BiddingNumber = bn))

/-- Number of quotations of the list carrying bidding number `bn`. -/
def matchCount (bn : Int) (qs : List BiddingDetails) : Nat :=
  qs.countP (fun q => decide (q.BiddingNumber = bn))

/-- Arguments of the end-to-end example of the specification: `APP-1`, credit
score 650, age 35, a 7-character identifier, income 2500, tenure 5. -/
def app1Args : List String :=
  ["APP-1", "make", "model", "10000", "1234567", "35", "2500", "650", "5"]

/-- Arguments of an application every lender rejects: credit score 200. -/
def app2Args : List String :=
  ["APP-2", "make", "model", "10000", "1234567", "35", "2500", "200", "5"]

/-- The record `CreateLoanApplication` builds for `app1Args` on the empty
ledger. -/
def app1Record : LoanApplication :=
  (createRecord exampleLib stub0 rt0 "APP-1" "make" "model" "10000" "1234567" "35" "2500"
    "650" "5").1

/-- Ledger and runtime after `APP-1` has been created on the empty ledger. -/
def afterApp1 : Stub LoanApplication × Runtime :=
  (CreateLoanApplication exampleLib stub0 rt0 app1Args).2

/-- Number of installments of a schedule whose status is `MISSED`. -/
def missedCount (l : List PaymentDetail) : Nat :=
  l.countP (fun p => decide (p.RepaymentStatus = STATE_MISSED))

/-- The installment `p` as `ChangePaymentStatus` leaves it when it is the one
addressed: the new status and a metadata value stamped from the invocation
(`ApplicationState` is not assigned and stays 0). -/
def stampInstallment {β : Type} (stub : Stub β) (now : Time) (repaymentStatus : Int)
    (p : PaymentDetail) : PaymentDetail :=
  { p with
      RepaymentStatus := repaymentStatus
      Metadata :=
        { TransactionId := stub.TxID
          TransactionTimestamp := stub.TxTimestamp.getD ""
          CallerMetadata := stub.CallerMetadata
          TransactionDate := now } }

/-- One call of the chaincode from outside: the function name and arguments
given to `Invoke`, the invocation context, and the outcome of each `PutState`
the call makes. -/
structure Invocation where
  function : String
  args : List String
  TxID : String
  TxTimestamp : Option String
  CallerMetadata : List Nat
  putErr : Nat → Bool

/-- The invocation `i` run by `Invoke` on ledger `w.1` and runtime `w.2`. -/
def runInvocation {β : Type} (lib : Lib β) (w : (String → Option β) × Runtime)
    (i : Invocation) : Outcome β × Stub β × Runtime :=
  Invoke lib
    { state := w.1, putErr := i.putErr, putPos := 0, TxID := i.TxID
      TxTimestamp := i.TxTimestamp, CallerMetadata := i.CallerMetadata } w.2 i.function i.args

/-- Ledger and runtime after the invocations of the list have run in order. -/
def runTrace {β : Type} (lib : Lib β) :
    (String → Option β) × Runtime → List Invocation → (String → Option β) × Runtime
  | w, [] => w
  | w, i :: rest =>
    runTrace lib ((runInvocation lib w i).2.1.state, (runInvocation lib w i).2.2) rest

/-- The bidding number an invocation accepts: the second argument of a
`ConfirmBid` call whose third argument reads as `BID_ACCEPTED`. -/
def acceptedNumber {β : Type} (lib : Lib β) (i : Invocation) : Option Int :=
  if i.function = "ConfirmBid" then
    match i.args with
    | _ :: a1 :: a2 :: _ => if lib.Atoi a2 = STATE_BID_ACCEPTED then some (lib.Atoi a1) else none
    | _ => none
  else none

/-- The bidding numbers accepted along a list of invocations. -/
def acceptedNumbers {β : Type} (lib : Lib β) (tr : List Invocation) : List Int :=
  tr.filterMap (acceptedNumber lib)

/-- Number of quotations flagged as winning. -/
def winnerCount (qs : List BiddingDetails) : Nat :=
  qs.countP (fun q => q.IsWinningBid)

/-- An invocation with the context of the examples whose writes all succeed. -/
def call (function : String) (args : List String) : Invocation :=
  { function := function, args := args, TxID := "tx", TxTimestamp := some "ts"
    CallerMetadata := [], putErr := fun _ => false }

/-- A stored loan with four demanded installments and nothing missed. -/
def loan5 : LoanApplication :=
  { ApplicationNumber := "APP-5", Status := STATE_BID_ACCEPTED
    RepaymentSchedule :=
      [ { InstallmentNumber := 1, RepaymentStatus := STATE_DEMANDED },
        { InstallmentNumber := 2, RepaymentStatus := STATE_DEMANDED },
        { InstallmentNumber := 3, RepaymentStatus := STATE_DEMANDED },
        { InstallmentNumber := 4, RepaymentStatus := STATE_DEMANDED } ] }

/-- A ledger holding `loan5` under its application number. -/
def stub5 : Stub LoanApplication :=
  { stub0 with state := fun k => if k = "APP-5" then some loan5 else none }

/-- A ledger holding `app1Record` under `APP-1`, every write to which fails. -/
def stubFailing : Stub LoanApplication :=
  { afterApp1.1 with putErr := fun _ => true }

/-- The record `ConfirmBid` has built from the decoded record `a` when it
calls `SaveApplicationDetails`, with the runtime at that point. -/
def confirmUpdate (a : LoanApplication) (bn s : Int) (rt : Runtime) :
    LoanApplication × Runtime :=
  ({ a with
      Status := s
      Quotations := (confirmLoop bn s a.Quotations (a.AccountNumber, a.RepaymentSchedule, rt)).1
      AccountNumber :=
        (confirmLoop bn s a.Quotations (a.AccountNumber, a.RepaymentSchedule, rt)).2.1
      RepaymentSchedule :=
        (confirmLoop bn s a.Quotations (a.AccountNumber, a.RepaymentSchedule, rt)).2.2.1 },
   (confirmLoop bn s a.Quotations (a.AccountNumber, a.RepaymentSchedule, rt)).2.2.2)

/-- The record `ChangePaymentStatus` has built from the decoded record `a`
when it calls `SaveApplicationDetails`, with the runtime at that point. -/
def changeUpdate {β : Type} (stub : Stub β) (a : LoanApplication) (n r : Int) (rt : Runtime) :
    LoanApplication × Runtime :=
  (CheckLoanDefaultStatus
    { a with RepaymentSchedule := (changeLoop stub n r a.RepaymentSchedule rt).1 },
   (changeLoop stub n r a.RepaymentSchedule rt).2)

/-- The edges of the lifecycle state machine of the specification:
`APPLIED -> QUOTATIONS_RECEIVED -> BID_ACCEPTED | BID_REJECTED ->
PERFORMING | NON_PERFORMING`, the last two re-entrant. -/
def lifecycleEdge (s t : Int) : Bool :=
  (s == STATE_APPLIED && t == STATE_QUOTATIONS_RECEIVED) ||
  (s == STATE_QUOTATIONS_RECEIVED && (t == STATE_BID_ACCEPTED || t == STATE_BID_REJECTED)) ||
  ((s == STATE_BID_ACCEPTED || s == STATE_BID_REJECTED || s == STATE_PERFORMING ||
      s == STATE_NON_PERFORMING) &&
    (t == STATE_PERFORMING || t == STATE_NON_PERFORMING))

/-- The status stored under `APP-1` once the invocations have run on the
empty ledger. -/
def statusAfter (tr : List Invocation) : Option Int :=
  ((runTrace exampleLib (stub0.state, rt0) tr).1 "APP-1").map (fun a => a.Status)

/-- The repayment statuses of the schedule stored under `APP-1` once the
invocations have run on the empty ledger. -/
def scheduleStatusesAfter (tr : List Invocation) : Option (List Int) :=
  ((runTrace exampleLib (stub0.state, rt0) tr).1 "APP-1").map
    (fun a => a.RepaymentSchedule.map (fun p => p.RepaymentStatus))

/-- The winning flags of the quotations stored under application `k` once
the invocations have run on the empty ledger. -/
def winningFlagsAfter (k : String) (tr : List Invocation) : Option (List Bool) :=
  ((runTrace exampleLib (stub0.state, rt0) tr).1 k).map
    (fun a => a.Quotations.map (fun q => q.IsWinningBid))

/-- The invocations of the example on `APP-1`: create, accept bidding number
7, mark installment 1 missed. -/
def app1Trace : List Invocation :=
  [ call "CreateLoanApplication" app1Args, call "ConfirmBid" ["APP-1", "7", "2"],
    call "ChangePaymentStatus" ["APP-1", "", "1", "3"] ]

/-- The record stored under `APP-1` once `app1Trace` has run on the empty
ledger. -/
def app1Final : LoanApplication :=
  ((runTrace exampleLib (stub0.state, rt0) app1Trace).1 "APP-1").getD {}

/-- A rational that is a binary32 (`float32`) number: an integer significand
of fewer than 24 bits times a power of two within the exponent range. -/
def isBinary32 (q : ℚ) : Prop :=
  ∃ m e : Int, |m| < 2 ^ 24 ∧ -149 ≤ e ∧ e ≤ 104 ∧ q = (m : ℚ) * (2 : ℚ) ^ e

/-- A rational that is a binary64 (`float64`) number. -/
def isBinary64 (q : ℚ) : Prop :=
  ∃ m e : Int, |m| < 2 ^ 53 ∧ -1074 ≤ e ∧ e ≤ 971 ∧ q = (m : ℚ) * (2 : ℚ) ^ e

/-- Lines 375-397 of `GetQuoteFromLender1` (the same in the other three quote
functions) with the floating-point arithmetic made explicit: `r32` is the
rounding to `float32` applied to every constant and every sum, `r64` the
conversion `float64(finalRate)`. -/
def finalRateFloat (r32 r64 : ℚ → ℚ) (evaluationParams : EvaluationParams) : ℚ :=
  let baseRate := r32 5
  let delta := r32 0
  let delta :=
    if evaluationParams.CreditScore < 700 ∧ evaluationParams.CreditScore > 500 then
      r32 (delta + r32 (1 / 4))
    else if evaluationParams.CreditScore < 500 ∧ evaluationParams.CreditScore > 300 then
      r32 (delta + r32 (1 / 2))
    else delta
  let delta :=
    if evaluationParams.Age > 30 ∧ evaluationParams.Age < 50 then r32 (delta + r32 (1 / 4))
    else if evaluationParams.Age > 50 then r32 (delta + r32 (1 / 2))
    else delta
  let delta :=
    if evaluationParams.MonthlyIncome > 1000 ∧ evaluationParams.MonthlyIncome < 3000 then
      r32 (delta + r32 (1 / 2))
    else if evaluationParams.MonthlyIncome > 3000 then r32 (delta + r32 (1 / 4))
    else delta
  let finalRate := r32 (baseRate + delta)
  r64 finalRate

/-- The seven rates an eligible applicant can be quoted. -/
def rateValues : List ℚ := [5, 21 / 4, 11 / 2, 23 / 4, 6, 25 / 4, 13 / 2]

/-- An eligible applicant in the dearest band of every dimension: score 400,
age 60, income 2000. -/
def dearApplicant : EvaluationParams :=
  { CreditScore := 400, Age := 60, SSN := "1234567", MonthlyIncome := 2000 }

/-- An eligible applicant outside every band: score 700, age 30, income 3000. -/
def plainApplicant : EvaluationParams :=
  { CreditScore := 700, Age := 30, SSN := "1234567", MonthlyIncome := 3000 }

theorem creditDelta_code (s : Int) :
    (if s < 700 ∧ s > 500 then (0 : ℚ) + 1 / 4 else if s < 500 ∧ s > 300 then 0 + 1 / 2 else 0)
      = creditDelta s := by
  unfold creditDelta
  split_ifs <;> first | omega | norm_num

theorem ageDelta_code (a : Int) (d : ℚ) :
    (if a > 30 ∧ a < 50 then d + 1 / 4 else if a > 50 then d + 1 / 2 else d) = d + ageDelta a := by
  unfold ageDelta
  split_ifs <;> first | omega | simp

theorem incomeDelta_code (m d : ℚ) :
    (if m > 1000 ∧ m < 3000 then d + 1 / 2 else if m > 3000 then d + 1 / 4 else d)
      = d + incomeDelta m := by
  unfold incomeDelta
  split_ifs <;> first | rfl | simp

theorem lenderQuote_eq_quotePolicy (k : Fin 4) (p : EvaluationParams) (rt : Runtime) :
    lenderQuote k p rt = quotePolicy ((k.val + 1 : Nat) : Int) (interestLabel k) p rt := by
  fin_cases k <;>
    simp only [lenderQuote, GetQuoteFromLender1, GetQuoteFromLender2, GetQuoteFromLender3,
      GetQuoteFromLender4, quotePolicy, RuneCountInString, creditDelta_code, ageDelta_code,
      incomeDelta_code, LENDER_REJECT_APPLICATION, LENDER_ACCEPT_APPLICATION, interestLabel] <;>
    split_ifs <;> first | rfl | omega | simp_all

theorem quotePolicy_eligible (i : Int) (l : String) (p : EvaluationParams) (rt : Runtime)
    (h : Eligible p) :
    quotePolicy i l p rt =
      ({ ApplicationNumber := p.ApplicationNumber
         ApplicationAcceptStatus := 1
         BiddingNumber := (GenerateBiddingNumber rt).1
         BiddingDate := (GenerateBiddingNumber rt).2.Now.1
         LenderId := i
         SanctionedAmount := p.LoanAmount
         Tenure := p.Tenure
         InterestType := l
         InterestRate :=
           5 + (creditDelta p.CreditScore + ageDelta p.Age + incomeDelta p.MonthlyIncome)
         IsWinningBid := false }, (GenerateBiddingNumber rt).2.Now.2) := by
  obtain ⟨h1, h2, h3, h4⟩ := h
  unfold quotePolicy
  rw [if_neg (not_lt.mpr h1), if_neg (not_lt.mpr h2), if_neg (not_not.mpr h3),
    if_neg (not_lt.mpr h4)]

theorem firstFailure_eq (p : EvaluationParams) :
    firstFailure p =
      if p.CreditScore < 300 then some "Not meeting credit score requirements"
      else if p.Age < 18 then some "Not meeting age requirements"
      else if p.SSN.length ≠ 7 then some "Invalid SSN"
      else if p.MonthlyIncome < 1000 then some "Not meeting monthly income requirements"
      else none := by
  unfold firstFailure rejectionRules
  simp only [List.find?_cons, List.find?_nil]
  by_cases h1 : p.CreditScore < 300
  · simp [h1]
  · by_cases h2 : p.Age < 18
    · simp [h1, h2]
    · by_cases h3 : p.SSN.length = 7
      · by_cases h4 : p.MonthlyIncome < 1000
        · simp [h1, h2, h3, h4]
        · simp [h1, h2, h3, h4]
      · simp [h1, h2, h3]

/-! ## The quote policies: claims C1 to C4 -/

/-- C1: for every eligible applicant and each of the four lender quote
functions, the quoted interest rate is exactly 5.00 plus the credit-score,
age and income band deltas of the specification, the band edges contributing
nothing. -/
theorem C1_interest_rate (k : Fin 4) (p : EvaluationParams) (rt : Runtime) (h : Eligible p) :
    (lenderQuote k p rt).1.InterestRate =
      5 + creditDelta p.CreditScore + ageDelta p.Age + incomeDelta p.MonthlyIncome := by
  rw [lenderQuote_eq_quotePolicy, quotePolicy_eligible _ _ _ _ h]
  simp only [add_assoc]

/-- Witness for C1: score 650, age 35, income 2500 is eligible and is quoted
exactly 6.00 by lender 1; score 500, age 50, income 3000 is eligible and is
quoted exactly 5.00 by lender 4. -/
theorem C1_interest_rate_witness :
    (Eligible { CreditScore := 650, Age := 35, SSN := "1234567", MonthlyIncome := 2500 } ∧
      (lenderQuote 0 { CreditScore := 650, Age := 35, SSN := "1234567", MonthlyIncome := 2500 }
        rt0).1.InterestRate = 6) ∧
    (Eligible { CreditScore := 500, Age := 50, SSN := "1234567", MonthlyIncome := 3000 } ∧
      (lenderQuote 3 { CreditScore := 500, Age := 50, SSN := "1234567", MonthlyIncome := 3000 }
        rt0).1.InterestRate = 5) := by
  have e1 : Eligible { CreditScore := 650, Age := 35, SSN := "1234567", MonthlyIncome := 2500 } := by
    refine ⟨by decide, by decide, by decide, by norm_num⟩
  have e2 : Eligible { CreditScore := 500, Age := 50, SSN := "1234567", MonthlyIncome := 3000 } := by
    refine ⟨by decide, by decide, by decide, by norm_num⟩
  refine ⟨⟨e1, ?_⟩, ⟨e2, ?_⟩⟩
  · rw [C1_interest_rate 0 _ rt0 e1]
    norm_num [creditDelta, ageDelta, incomeDelta]
  · rw [C1_interest_rate 3 _ rt0 e2]
    norm_num [creditDelta, ageDelta, incomeDelta]

/-- C2: for every parameter set and each of the four lender quote functions the
bid is a rejection exactly when the credit score is below 300, the age below
18, the SSN not of exactly 7 code points, or the monthly income below 1000, and
an acceptance otherwise; the low-side edges 300, 18 and 1000 are accepted
(here with an SSN of 7 code points that takes 14 bytes in UTF-8). -/
theorem C2_reject_iff (k : Fin 4) (p : EvaluationParams) (rt : Runtime) :
    ((lenderQuote k p rt).1.ApplicationAcceptStatus = LENDER_REJECT_APPLICATION ↔
        (p.CreditScore < 300 ∨ p.Age < 18 ∨ p.SSN.length ≠ 7 ∨ p.MonthlyIncome < 1000)) ∧
    (lenderQuote k p rt).1.ApplicationAcceptStatus =
      (if p.CreditScore < 300 ∨ p.Age < 18 ∨ p.SSN.length ≠ 7 ∨ p.MonthlyIncome < 1000 then
        LENDER_REJECT_APPLICATION else LENDER_ACCEPT_APPLICATION) ∧
    (lenderQuote k
      { CreditScore := 300, Age := 18, SSN := "\u00e9\u00e9\u00e9\u00e9\u00e9\u00e9\u00e9"
        MonthlyIncome := 1000 } rt).1.ApplicationAcceptStatus = LENDER_ACCEPT_APPLICATION := by
  refine ⟨?_, ?_, ?_⟩
  · rw [lenderQuote_eq_quotePolicy]
    unfold quotePolicy LENDER_REJECT_APPLICATION
    split_ifs <;> simp_all
  · rw [lenderQuote_eq_quotePolicy]
    unfold quotePolicy LENDER_REJECT_APPLICATION LENDER_ACCEPT_APPLICATION
    by_cases h1 : p.CreditScore < 300
    · simp [h1]
    · by_cases h2 : p.Age < 18
      · simp [h1, h2]
      · by_cases h3 : p.SSN.length = 7
        · by_cases h4 : p.MonthlyIncome < 1000
          · simp [h1, h2, h3, h4]
          · simp [h1, h2, h3, h4]
        · simp [h1, h2, h3]
  · rw [lenderQuote_eq_quotePolicy, quotePolicy_eligible]
    · rfl
    · refine ⟨by decide, by decide, by decide, by norm_num⟩

/-- C3: for every parameter set some eligibility rule rejects, each of the four
lender quote functions reports the reason of the first failing rule in the
order credit score, age, identifier length, income, and leaves every pricing
field at its zero value. -/
theorem C3_rejection_reason (k : Fin 4) (p : EvaluationParams) (rt : Runtime)
    (h : ¬ Eligible p) :
    firstFailure p = some (lenderQuote k p rt).1.RejectionReason ∧
    (lenderQuote k p rt).1.ApplicationAcceptStatus = LENDER_REJECT_APPLICATION ∧
    (lenderQuote k p rt).1.BiddingNumber = 0 ∧
    (lenderQuote k p rt).1.SanctionedAmount = 0 ∧
    (lenderQuote k p rt).1.InterestRate = 0 ∧
    (lenderQuote k p rt).1.Tenure = 0 ∧
    (lenderQuote k p rt).1.InterestType = "" ∧
    (lenderQuote k p rt).1.IsWinningBid = false := by
  rw [lenderQuote_eq_quotePolicy, firstFailure_eq]
  unfold Eligible at h
  unfold quotePolicy LENDER_REJECT_APPLICATION
  split_ifs with h1 h2 h3 h4
  · simp
  · simp
  · simp
  · simp
  · exact absurd ⟨not_lt.mp h1, not_lt.mp h2, not_not.mp h3, not_lt.mp h4⟩ h

/-- Witness for C3: score 200 with age 10 is rejected by lender 2 with the
credit-score reason, not the age reason. -/
theorem C3_rejection_reason_witness :
    ¬ Eligible { CreditScore := 200, Age := 10 } ∧
    (lenderQuote 1 { CreditScore := 200, Age := 10 } rt0).1.RejectionReason =
      "Not meeting credit score requirements" ∧
    firstFailure { CreditScore := 200, Age := 10 } =
      some (lenderQuote 1 { CreditScore := 200, Age := 10 } rt0).1.RejectionReason :=
  ⟨by unfold Eligible; decide, by rfl,
    (C3_rejection_reason 1 { CreditScore := 200, Age := 10 } rt0 (by unfold Eligible; decide)).1⟩

/-- C4: lender `k + 1` returns the bid of `GetQuoteFromLender1` (same generated
bidding number and bid date, same generator and clock afterwards) with, in the
accepted case only, the lender id replaced by `k + 1` and the interest type by
simple for odd and floating for even ids; status, reason, rate, sanctioned
amount (the requested amount), tenure (the requested tenure) and winning flag
(false) agree across the four. -/
theorem C4_same_policy (k : Fin 4) (p : EvaluationParams) (rt : Runtime) :
    lenderQuote k p rt =
      (relabel k (GetQuoteFromLender1 p rt).1, (GetQuoteFromLender1 p rt).2) ∧
    (lenderQuote k p rt).1.ApplicationAcceptStatus =
      (GetQuoteFromLender1 p rt).1.ApplicationAcceptStatus ∧
    (lenderQuote k p rt).1.RejectionReason = (GetQuoteFromLender1 p rt).1.RejectionReason ∧
    (lenderQuote k p rt).1.InterestRate = (GetQuoteFromLender1 p rt).1.InterestRate ∧
    (lenderQuote k p rt).1.SanctionedAmount = (if Eligible p then p.LoanAmount else 0) ∧
    (lenderQuote k p rt).1.Tenure = (if Eligible p then p.Tenure else 0) ∧
    (lenderQuote k p rt).1.IsWinningBid = false ∧
    (lenderQuote k p rt).1.LenderId = (if Eligible p then ((k.val + 1 : Nat) : Int) else 0) ∧
    (lenderQuote k p rt).1.InterestType = (if Eligible p then interestLabel k else "") := by
  have h1 : GetQuoteFromLender1 p rt = lenderQuote 0 p rt := rfl
  rw [h1, lenderQuote_eq_quotePolicy, lenderQuote_eq_quotePolicy]
  by_cases he : Eligible p
  · rw [quotePolicy_eligible _ _ _ _ he, quotePolicy_eligible _ _ _ _ he]
    simp [relabel, LENDER_ACCEPT_APPLICATION, he]
  · have hr : ∀ i l, (quotePolicy i l p rt).1.ApplicationAcceptStatus = 0 ∧
        quotePolicy i l p rt = quotePolicy 0 "" p rt := by
      intro i l
      unfold Eligible at he
      unfold quotePolicy
      split_ifs with h1 h2 h3 h4
      · simp
      · simp
      · simp
      · simp
      · exact absurd ⟨not_lt.mp h1, not_lt.mp h2, not_not.mp h3, not_lt.mp h4⟩ he
    have hz : (quotePolicy 0 "" p rt).1.ApplicationAcceptStatus = 0 := by
      rw [← (hr 0 "").2]; exact (hr 0 "").1
    have hf : (quotePolicy 0 "" p rt).1.SanctionedAmount = 0 ∧
        (quotePolicy 0 "" p rt).1.Tenure = 0 ∧ (quotePolicy 0 "" p rt).1.IsWinningBid = false ∧
        (quotePolicy 0 "" p rt).1.LenderId = 0 ∧ (quotePolicy 0 "" p rt).1.InterestType = "" := by
      unfold Eligible at he
      unfold quotePolicy
      split_ifs with h1 h2 h3 h4
      · simp
      · simp
      · simp
      · simp
      · exact absurd ⟨not_lt.mp h1, not_lt.mp h2, not_not.mp h3, not_lt.mp h4⟩ he
    rw [(hr _ (interestLabel k)).2, (hr _ (interestLabel 0)).2]
    simp [relabel, LENDER_ACCEPT_APPLICATION, he, hz, hf]

/-! ## Lemmas on the scheduler and the monitor -/

theorem scheduleLoop_eq (q : BiddingDetails) (n : Int) (k : Nat) (i : Int)
    (acc : List PaymentDetail) :
    scheduleLoop q n k i acc =
      acc ++ (List.range k).map (fun (j : Nat) => installmentDetail q n (i + (j : Int))) := by
  induction k generalizing i acc with
  | zero => simp [scheduleLoop]
  | succ k ih =>
    rw [scheduleLoop, ih, List.range_succ_eq_map, List.map_cons, List.map_map,
      List.append_assoc]
    simp [add_assoc, add_comm (1 : Int)]

theorem wrapInt_of_range (x : Int) (h0 : 0 ≤ x) (h1 : x < 2 ^ 63) : wrapInt x = x := by
  unfold wrapInt
  omega

theorem GenerateRepaymentSchedule_eq (q : BiddingDetails) :
    GenerateRepaymentSchedule q =
      (List.range (wrapInt (q.Tenure * 12)).toNat).map
        (fun (j : Nat) => installmentDetail q (wrapInt (q.Tenure * 12)) (j : Int)) := by
  unfold GenerateRepaymentSchedule
  simp [scheduleLoop_eq]

theorem countMissedLoop_eq (l : List PaymentDetail) (c : Int) :
    countMissedLoop l c =
      c + ((missedCount l : Nat) : Int) := by
  unfold missedCount
  induction l generalizing c with
  | nil => simp [countMissedLoop]
  | cons p rest ih =>
    unfold countMissedLoop
    by_cases h : p.RepaymentStatus = STATE_MISSED
    · rw [if_pos h, ih, List.countP_cons_of_pos _ _ (by simpa using h)]
      push_cast
      ring
    · rw [if_neg h, ih, List.countP_cons_of_neg _ _ (by simpa using h)]

theorem GenerateRepaymentSchedule_of_range (q : BiddingDetails) (h0 : 0 ≤ q.Tenure)
    (h1 : q.Tenure * 12 < 2 ^ 63) :
    GenerateRepaymentSchedule q = (List.range (q.Tenure * 12).toNat).map (specInstallment q) := by
  rw [GenerateRepaymentSchedule_eq, wrapInt_of_range _ (by omega) h1]
  apply List.map_congr_left
  intro j _
  simp [installmentDetail, specInstallment]

/-! ## Scheduler and monitor: claims C5 to C7 -/

/-- C5 as stated fails: a quotation of tenure `2^62` years (a valid 64-bit
`int`) gets an empty schedule, and one of tenure 1537228672809129302 gets 8
installments, because `Tenure * 12` wraps around. -/
theorem C5_counterexample :
    (0 : Int) ≤ ({ SanctionedAmount := 1200, Tenure := 4611686018427387904 } : BiddingDetails).Tenure ∧
    GenerateRepaymentSchedule { SanctionedAmount := 1200, Tenure := 4611686018427387904 } = [] ∧
    (((GenerateRepaymentSchedule
        { SanctionedAmount := 1200, Tenure := 4611686018427387904 }).length : Nat) : Int) ≠
      4611686018427387904 * 12 ∧
    (GenerateRepaymentSchedule
        { SanctionedAmount := 1200, Tenure := 1537228672809129302 }).length = 8 := by
  refine ⟨by decide, ?_, ?_, ?_⟩
  · rw [GenerateRepaymentSchedule_eq]
    have : wrapInt 55340232221128654848 = 0 := by unfold wrapInt; norm_num
    simp [this]
  · rw [GenerateRepaymentSchedule_eq]
    have : wrapInt 55340232221128654848 = 0 := by unfold wrapInt; norm_num
    simp [this]
  · rw [GenerateRepaymentSchedule_eq]
    have : wrapInt 18446744073709551624 = 8 := by unfold wrapInt; norm_num
    simp [this]

/-- C5 (amended): for every winning quotation with tenure `t >= 0` and
`t * 12` within the 64-bit `int` range, `GenerateRepaymentSchedule` returns
exactly `t * 12` installments, the `i`-th (1-based) having installment number
`i`, principal `SanctionedAmount / (t * 12)`, interest
`principal * InterestRate / 100`, total `principal + interest` and status
`DEMANDED`. -/
theorem C5_schedule (q : BiddingDetails) (h0 : 0 ≤ q.Tenure) (h1 : q.Tenure * 12 < 2 ^ 63) :
    GenerateRepaymentSchedule q = (List.range (q.Tenure * 12).toNat).map (specInstallment q) ∧
    (((GenerateRepaymentSchedule q).length : Nat) : Int) = q.Tenure * 12 ∧
    (∀ i : Nat, i < (q.Tenure * 12).toNat →
      ∃ e, (GenerateRepaymentSchedule q)[i]? = some e ∧
        e.InstallmentNumber = (i : Int) + 1 ∧
        e.PrincipalAmount = q.SanctionedAmount / ((q.Tenure * 12 : Int) : ℚ) ∧
        e.InterestAmount = e.PrincipalAmount * q.InterestRate / 100 ∧
        e.TotalEMI = e.PrincipalAmount + e.InterestAmount ∧
        e.RepaymentStatus = STATE_DEMANDED) := by
  have h := GenerateRepaymentSchedule_of_range q h0 h1
  refine ⟨h, ?_, ?_⟩
  · rw [h, List.length_map, List.length_range]
    omega
  · intro i hi
    refine ⟨specInstallment q i, ?_, rfl, rfl, rfl, rfl, rfl⟩
    rw [h]
    simp [hi]

/-- Witness for C5: the 5-year quotation gets 60 installments. -/
theorem C5_schedule_witness :
    (0 : Int) ≤ q5.Tenure ∧ q5.Tenure * 12 < 2 ^ 63 ∧
    (((GenerateRepaymentSchedule q5).length : Nat) : Int) = 60 :=
  ⟨by decide, by decide, (C5_schedule q5 (by decide) (by decide)).2.1⟩

/-- C6 as stated fails: with tenure `2^62 >= 1` the schedule is empty, so the
principals sum to 0 and not to the sanctioned amount 1200. -/
theorem C6_counterexample :
    (1 : Int) ≤ ({ SanctionedAmount := 1200, Tenure := 4611686018427387904 } : BiddingDetails).Tenure ∧
    ((GenerateRepaymentSchedule
        { SanctionedAmount := 1200, Tenure := 4611686018427387904 }).map
          (fun e => e.PrincipalAmount)).sum ≠
      ({ SanctionedAmount := 1200, Tenure := 4611686018427387904 } : BiddingDetails).SanctionedAmount := by
  refine ⟨by decide, ?_⟩
  rw [GenerateRepaymentSchedule_eq]
  have : wrapInt 55340232221128654848 = 0 := by unfold wrapInt; norm_num
  simp [this]

/-- C6 (amended): for every winning quotation with tenure at least 1 and
`Tenure * 12` within the 64-bit `int` range, the principals of the generated
installments sum exactly to the sanctioned amount. -/
theorem C6_principal_sum (q : BiddingDetails) (h0 : 1 ≤ q.Tenure)
    (h1 : q.Tenure * 12 < 2 ^ 63) :
    ((GenerateRepaymentSchedule q).map (fun e => e.PrincipalAmount)).sum = q.SanctionedAmount := by
  rw [GenerateRepaymentSchedule_of_range q (by omega) h1, List.map_map]
  have hc : ((fun e : PaymentDetail => e.PrincipalAmount) ∘ specInstallment q) =
      fun _ => q.SanctionedAmount / ((q.Tenure * 12 : Int) : ℚ) := by
    funext j
    rfl
  rw [hc, List.map_const', List.length_range, List.sum_replicate, nsmul_eq_mul]
  have hn : (((q.Tenure * 12).toNat : Nat) : ℚ) = ((q.Tenure * 12 : Int) : ℚ) := by
    have : (((q.Tenure * 12).toNat : Nat) : Int) = q.Tenure * 12 := by omega
    exact_mod_cast congrArg (fun z : Int => (z : ℚ)) this
  rw [hn]
  have hne : ((q.Tenure * 12 : Int) : ℚ) ≠ 0 := by
    have : q.Tenure * 12 ≠ 0 := by omega
    exact_mod_cast this
  field_simp

/-- Witness for C6: the 60 principals of the 5-year quotation sum to 6000. -/
theorem C6_principal_sum_witness :
    (1 : Int) ≤ q5.Tenure ∧ q5.Tenure * 12 < 2 ^ 63 ∧
    ((GenerateRepaymentSchedule q5).map (fun e => e.PrincipalAmount)).sum = 6000 :=
  ⟨by decide, by decide, C6_principal_sum q5 (by decide) (by decide)⟩

/-- C7: `CheckLoanDefaultStatus` sets the status to `NON_PERFORMING` exactly
when at least 3 installments of the schedule are `MISSED` and to `PERFORMING`
otherwise (an empty schedule included); it changes no other field, and the
status is a function of the count of missed installments alone. -/
theorem C7_default_status (a : LoanApplication) :
    (CheckLoanDefaultStatus a).Status =
      (if 3 ≤ missedCount a.RepaymentSchedule then STATE_NON_PERFORMING else STATE_PERFORMING) ∧
    ((CheckLoanDefaultStatus a).Status = STATE_NON_PERFORMING ↔
      3 ≤ missedCount a.RepaymentSchedule) ∧
    ((CheckLoanDefaultStatus a).Status = STATE_PERFORMING ↔
      missedCount a.RepaymentSchedule < 3) ∧
    CheckLoanDefaultStatus a = { a with Status := (CheckLoanDefaultStatus a).Status } ∧
    (CheckLoanDefaultStatus { a with RepaymentSchedule := [] }).Status = STATE_PERFORMING ∧
    (∀ b : LoanApplication, missedCount b.RepaymentSchedule = missedCount a.RepaymentSchedule →
      (CheckLoanDefaultStatus b).Status = (CheckLoanDefaultStatus a).Status) := by
  have key : ∀ x : LoanApplication, (CheckLoanDefaultStatus x).Status =
      (if 3 ≤ missedCount x.RepaymentSchedule then STATE_NON_PERFORMING
        else STATE_PERFORMING) := by
    intro x
    unfold CheckLoanDefaultStatus
    simp only [countMissedLoop_eq, zero_add]
    by_cases h : 3 ≤ missedCount x.RepaymentSchedule
    · have h3 : ((missedCount x.RepaymentSchedule : Nat) : Int) ≥ 3 := by omega
      rw [if_pos h3, if_pos h]
    · have h3 : ¬ ((missedCount x.RepaymentSchedule : Nat) : Int) ≥ 3 := by omega
      rw [if_neg h3, if_neg h]
  refine ⟨key a, ?_, ?_, ?_, ?_, ?_⟩
  · rw [key a]
    by_cases h : 3 ≤ missedCount a.RepaymentSchedule
    · simp [h]
    · simp [h, STATE_NON_PERFORMING, STATE_PERFORMING]
  · rw [key a]
    by_cases h : 3 ≤ missedCount a.RepaymentSchedule
    · simp [h, STATE_NON_PERFORMING, STATE_PERFORMING]
    · simp [h]
      omega
  · unfold CheckLoanDefaultStatus
    simp only []
    split_ifs <;> rfl
  · rw [key]
    simp [missedCount]
  · intro b hb
    rw [key a, key b, hb]

/-! ## Lemmas on saving -/

theorem SaveApplicationDetails_fst {β : Type} (lib : Lib β) (stub : Stub β) (rt : Runtime)
    (a : LoanApplication) :
    (SaveApplicationDetails lib stub rt a).1 =
      if stub.putErr stub.putPos = false then
        { a with Transactions :=
            a.Transactions ++ [(GetTransactionMetadata stub rt a).1] }
      else a := by
  unfold SaveApplicationDetails Stub.PutState GetTransactionMetadata
  by_cases h : stub.putErr stub.putPos = true
  · simp [h]
  · simp [h]

theorem SaveApplicationDetails_frame {β : Type} (lib : Lib β) (stub : Stub β) (rt : Runtime)
    (a : LoanApplication) :
    (SaveApplicationDetails lib stub rt a).1.Status = a.Status ∧
    (SaveApplicationDetails lib stub rt a).1.Quotations = a.Quotations ∧
    (SaveApplicationDetails lib stub rt a).1.RepaymentSchedule = a.RepaymentSchedule ∧
    (SaveApplicationDetails lib stub rt a).1.AccountNumber = a.AccountNumber ∧
    (SaveApplicationDetails lib stub rt a).1.ApplicationNumber = a.ApplicationNumber := by
  rw [SaveApplicationDetails_fst]
  split_ifs <;> simp

theorem quotePolicy_ineligible (i : Int) (l : String) (p : EvaluationParams) (rt : Runtime)
    (h : ¬ Eligible p) :
    (quotePolicy i l p rt).1.LenderId = 0 ∧ (quotePolicy i l p rt).1.InterestRate = 0 ∧
    (quotePolicy i l p rt).1.BiddingNumber = 0 ∧ (quotePolicy i l p rt).1.Tenure = 0 ∧
    (quotePolicy i l p rt).1.SanctionedAmount = 0 ∧ (quotePolicy i l p rt).2 = rt := by
  unfold Eligible at h
  unfold quotePolicy
  split_ifs with h1 h2 h3 h4
  · simp
  · simp
  · simp
  · simp
  · exact absurd ⟨not_lt.mp h1, not_lt.mp h2, not_not.mp h3, not_lt.mp h4⟩ h

theorem lenderQuote_rate (k : Fin 4) (p : EvaluationParams) (rt : Runtime) :
    (lenderQuote k p rt).1.InterestRate =
      (if Eligible p then
        5 + creditDelta p.CreditScore + ageDelta p.Age + incomeDelta p.MonthlyIncome
       else 0) := by
  rw [lenderQuote_eq_quotePolicy]
  by_cases h : Eligible p
  · rw [quotePolicy_eligible _ _ _ _ h, if_pos h]
    simp only [add_assoc]
  · rw [(quotePolicy_ineligible _ _ _ _ h).2.1, if_neg h]

/-! ## Lemmas on the loop of `ConfirmBid` -/

theorem lastMatch_cons (bn : Int) (q : BiddingDetails) (rest : List BiddingDetails) :
    lastMatch bn (q :: rest) =
      (lastMatch bn rest).or (if q.BiddingNumber = bn then some q else none) := by
  unfold lastMatch
  rw [List.reverse_cons, List.find?_append]
  congr 1
  by_cases h : q.BiddingNumber = bn
  · simp [h]
  · simp [h]

theorem confirmLoop_quotations (bn : Int) (qs : List BiddingDetails)
    (st : Int × List PaymentDetail × Runtime) :
    (confirmLoop bn STATE_BID_ACCEPTED qs st).1 = qs.map (markWinner bn) := by
  induction qs generalizing st with
  | nil => rfl
  | cons q rest ih =>
    unfold confirmLoop
    by_cases h : q.BiddingNumber = bn
    · simp [h, ih, markWinner]
    · simp [h, ih, markWinner]

theorem confirmLoop_schedule (bn : Int) (qs : List BiddingDetails)
    (st : Int × List PaymentDetail × Runtime) :
    (confirmLoop bn STATE_BID_ACCEPTED qs st).2.2.1 =
      match lastMatch bn qs with
      | some w => GenerateRepaymentSchedule { w with IsWinningBid := true }
      | none => st.2.1 := by
  induction qs generalizing st with
  | nil => rfl
  | cons q rest ih =>
    rw [lastMatch_cons]
    by_cases h : q.BiddingNumber = bn
    · have hc : q.BiddingNumber = bn ∧ STATE_BID_ACCEPTED = STATE_BID_ACCEPTED := ⟨h, rfl⟩
      rw [confirmLoop, if_pos hc, if_pos h]
      simp only [ih]
      cases lastMatch bn rest <;> rfl
    · have hc : ¬ (q.BiddingNumber = bn ∧ STATE_BID_ACCEPTED = STATE_BID_ACCEPTED) :=
        fun x => h x.1
      rw [confirmLoop, if_neg hc, if_neg h]
      simp only [ih]
      cases lastMatch bn rest <;> rfl

theorem lastMatch_some_of_mem (bn : Int) (qs : List BiddingDetails) (q : BiddingDetails)
    (hq : q ∈ qs) (hm : q.BiddingNumber = bn) :
    ∃ w, lastMatch bn qs = some w ∧ w ∈ qs ∧ w.BiddingNumber = bn := by
  unfold lastMatch
  cases hf : qs.reverse.find? (fun q => decide (q.BiddingNumber = bn)) with
  | none =>
    rw [List.find?_eq_none] at hf
    have := hf q (List.mem_reverse.mpr hq)
    simp [hm] at this
  | some w =>
    refine ⟨w, rfl, ?_, ?_⟩
    · exact List.mem_reverse.mp (List.mem_of_find?_eq_some hf)
    · simpa using List.find?_some hf

theorem GenerateRepaymentSchedule_flag (w : BiddingDetails) (b : Bool) :
    GenerateRepaymentSchedule { w with IsWinningBid := b } = GenerateRepaymentSchedule w := by
  rw [GenerateRepaymentSchedule_eq, GenerateRepaymentSchedule_eq]
  rfl

theorem wrapInt_of_mem (x : Int) (h0 : -2 ^ 63 ≤ x) (h1 : x < 2 ^ 63) : wrapInt x = x := by
  unfold wrapInt
  omega

/-! ## The lifecycle engine: claims C8 to C10 -/

/-- C8: `CreateLoanApplication` fails with the invalid-application error when
the application number is empty, and with the already-exists error when the
number is non-empty and the ledger holds a record under it; in both cases the
ledger, the generator and the clock are exactly as before. -/
theorem C8_create_failures {β : Type} (lib : Lib β) (stub : Stub β) (rt : Runtime)
    (a0 : String) (rest : List String) :
    (a0 = "" →
      CreateLoanApplication lib stub rt (a0 :: rest) =
        (Outcome.ret none (some "Invalid application"), stub, rt)) ∧
    (a0 ≠ "" → (stub.state a0).isSome = true →
      CreateLoanApplication lib stub rt (a0 :: rest) =
        (Outcome.ret none (some "Application already exist"), stub, rt)) := by
  constructor
  · intro h
    simp [CreateLoanApplication, h]
  · intro h hs
    obtain ⟨b, hb⟩ := Option.isSome_iff_exists.mp hs
    simp [CreateLoanApplication, h, Stub.GetState, hb]

/-- Witness for C8: an empty application number on the empty ledger, and
`APP-1` on a ledger that already holds it. -/
theorem C8_create_failures_witness :
    CreateLoanApplication exampleLib stub0 rt0 ["", "make", "model"] =
      (Outcome.ret none (some "Invalid application"), stub0, rt0) ∧
    ("APP-1" ≠ "" ∧ (stub1.state "APP-1").isSome = true ∧
      CreateLoanApplication exampleLib stub1 rt0
        ["APP-1", "make", "model", "10000", "1234567", "35", "2500", "650", "5"] =
        (Outcome.ret none (some "Application already exist"), stub1, rt0)) :=
  ⟨(C8_create_failures exampleLib stub0 rt0 "" _).1 rfl,
    by decide, by rfl,
    (C8_create_failures exampleLib stub1 rt0 "APP-1" _).2 (by decide) (by rfl)⟩

theorem confirmLoop_noop (bn s : Int) (qs : List BiddingDetails)
    (st : Int × List PaymentDetail × Runtime)
    (h : matchCount bn qs = 0 ∨ s ≠ STATE_BID_ACCEPTED) :
    confirmLoop bn s qs st = (qs, st) := by
  induction qs generalizing st with
  | nil => rfl
  | cons q rest ih =>
    have hc : ¬ (q.BiddingNumber = bn ∧ s = STATE_BID_ACCEPTED) := by
      rintro ⟨h1, h2⟩
      rcases h with h | h
      · unfold matchCount at h
        rw [List.countP_cons_of_pos _ _ (by simpa using h1)] at h
        omega
      · exact h h2
    have hrest : matchCount bn rest = 0 ∨ s ≠ STATE_BID_ACCEPTED := by
      rcases h with h | h
      · left
        unfold matchCount at h ⊢
        by_cases h1 : q.BiddingNumber = bn
        · rw [List.countP_cons_of_pos _ _ (by simpa using h1)] at h
          omega
        · rw [List.countP_cons_of_neg _ _ (by simpa using h1)] at h
          exact h
      · exact Or.inr h
    rw [confirmLoop, if_neg hc]
    simp only [ih _ hrest]

theorem confirmLoop_quotations_any (bn s : Int) (qs : List BiddingDetails)
    (st : Int × List PaymentDetail × Runtime) :
    (confirmLoop bn s qs st).1 =
      if s = STATE_BID_ACCEPTED then qs.map (markWinner bn) else qs := by
  by_cases hs : s = STATE_BID_ACCEPTED
  · rw [if_pos hs, hs, confirmLoop_quotations]
  · rw [if_neg hs, confirmLoop_noop bn s qs st (Or.inr hs)]

theorem confirmBidRecord_fields {β : Type} (lib : Lib β) (stub : Stub β) (rt : Runtime)
    (bytes : Option β) (bn s : Int) :
    (confirmBidRecord lib stub rt bytes bn s).1.Status = s ∧
    (confirmBidRecord lib stub rt bytes bn s).1.Quotations =
      (confirmLoop bn s (lib.decode bytes).Quotations
        ((lib.decode bytes).AccountNumber, (lib.decode bytes).RepaymentSchedule, rt)).1 ∧
    (confirmBidRecord lib stub rt bytes bn s).1.AccountNumber =
      (confirmLoop bn s (lib.decode bytes).Quotations
        ((lib.decode bytes).AccountNumber, (lib.decode bytes).RepaymentSchedule, rt)).2.1 ∧
    (confirmBidRecord lib stub rt bytes bn s).1.RepaymentSchedule =
      (confirmLoop bn s (lib.decode bytes).Quotations
        ((lib.decode bytes).AccountNumber, (lib.decode bytes).RepaymentSchedule, rt)).2.2.1 ∧
    (confirmBidRecord lib stub rt bytes bn s).1.ApplicationNumber =
      (lib.decode bytes).ApplicationNumber := by
  unfold confirmBidRecord
  simp only []
  refine ⟨?_, ?_, ?_, ?_, ?_⟩
  · rw [(SaveApplicationDetails_frame _ _ _ _).1]
  · rw [(SaveApplicationDetails_frame _ _ _ _).2.1]
  · rw [(SaveApplicationDetails_frame _ _ _ _).2.2.2.1]
  · rw [(SaveApplicationDetails_frame _ _ _ _).2.2.1]
  · rw [(SaveApplicationDetails_frame _ _ _ _).2.2.2.2]

/-! ## The lifecycle engine: claims C11 to C20 -/

/-- C12: for every stored application, every bid status `s` and every bidding
number carried by none of its quotations, `ConfirmBid` returns a record with
status `s` whose account number, repayment schedule and quotations (winning
flags included) are those of the stored record; the same holds for any
bidding number when `s` is not `BID_ACCEPTED`. -/
theorem C12_confirm_noop {β : Type} (lib : Lib β) (stub : Stub β) (rt : Runtime)
    (a0 a1 a2 : String) (tail : List String) (bytes : β)
    (R : LoanApplication × Stub β × Runtime)
    (hs : stub.state a0 = some bytes)
    (hR : R = confirmBidRecord lib stub rt (some bytes) (lib.Atoi a1) (lib.Atoi a2))
    (h : matchCount (lib.Atoi a1) (lib.Unmarshal bytes).Quotations = 0 ∨
      lib.Atoi a2 ≠ STATE_BID_ACCEPTED) :
    ConfirmBid lib stub rt (a0 :: a1 :: a2 :: tail) =
      (Outcome.ret (some (lib.Marshal R.1)) none, R.2) ∧
    R.1.Status = lib.Atoi a2 ∧
    R.1.AccountNumber = (lib.Unmarshal bytes).AccountNumber ∧
    R.1.RepaymentSchedule = (lib.Unmarshal bytes).RepaymentSchedule ∧
    R.1.Quotations = (lib.Unmarshal bytes).Quotations := by
  subst hR
  have hf := confirmBidRecord_fields lib stub rt (some bytes) (lib.Atoi a1) (lib.Atoi a2)
  have hl := confirmLoop_noop (lib.Atoi a1) (lib.Atoi a2) (lib.Unmarshal bytes).Quotations
    ((lib.Unmarshal bytes).AccountNumber, (lib.Unmarshal bytes).RepaymentSchedule, rt) h
  simp only [Lib.decode] at hf
  rw [hl] at hf
  refine ⟨?_, hf.1, hf.2.2.1, hf.2.2.2.1, hf.2.1⟩
  simp only [ConfirmBid, Stub.GetState, hs]

/-- Witness for C12: on `APP-1`, bidding number 999 (carried by no quotation)
with status `BID_ACCEPTED`, and bidding number 7 with status `BID_REJECTED`,
both leave account number, schedule and quotations as stored. -/
theorem C12_confirm_noop_witness :
    (afterApp1.1.state "APP-1" = some app1Record ∧
      matchCount (exampleLib.Atoi "999") (exampleLib.Unmarshal app1Record).Quotations = 0 ∧
      (confirmBidRecord exampleLib afterApp1.1 afterApp1.2 (some app1Record)
        (exampleLib.Atoi "999") (exampleLib.Atoi "2")).1.Quotations = app1Record.Quotations ∧
      (confirmBidRecord exampleLib afterApp1.1 afterApp1.2 (some app1Record)
        (exampleLib.Atoi "999") (exampleLib.Atoi "2")).1.Status = STATE_BID_ACCEPTED) ∧
    (exampleLib.Atoi "3" ≠ STATE_BID_ACCEPTED ∧
      (confirmBidRecord exampleLib afterApp1.1 afterApp1.2 (some app1Record)
        (exampleLib.Atoi "7") (exampleLib.Atoi "3")).1.Quotations = app1Record.Quotations ∧
      (confirmBidRecord exampleLib afterApp1.1 afterApp1.2 (some app1Record)
        (exampleLib.Atoi "7") (exampleLib.Atoi "3")).1.RepaymentSchedule = []) := by
  have h1 := C12_confirm_noop exampleLib afterApp1.1 afterApp1.2 "APP-1" "999" "2" []
    app1Record _ rfl rfl (Or.inl (by decide))
  have h2 := C12_confirm_noop exampleLib afterApp1.1 afterApp1.2 "APP-1" "7" "3" []
    app1Record _ rfl rfl (Or.inr (by decide))
  exact ⟨⟨rfl, by decide, h1.2.2.2.2, h1.2.1⟩, ⟨by decide, h2.2.2.2.2, h2.2.2.2.1⟩⟩

/-- C13 fails on the code: on the empty ledger, `ConfirmBid` and
`ChangePaymentStatus` for the unknown application `APP-9` return bytes and no
error, and each leaves a record with an empty application number stored
under the empty key. -/
theorem C13_missing_application :
    stub0.state "APP-9" = none ∧
    (ConfirmBid exampleLib stub0 rt0 ["APP-9", "7", "2"]).1 =
      Outcome.ret (some (confirmBidRecord exampleLib stub0 rt0 none 7 2).1) none ∧
    (confirmBidRecord exampleLib stub0 rt0 none 7 2).1.ApplicationNumber = "" ∧
    (confirmBidRecord exampleLib stub0 rt0 none 7 2).1.Status = STATE_BID_ACCEPTED ∧
    (ConfirmBid exampleLib stub0 rt0 ["APP-9", "7", "2"]).2.1.state "" =
      some (confirmBidRecord exampleLib stub0 rt0 none 7 2).1 ∧
    (ChangePaymentStatus exampleLib stub0 rt0 ["APP-9", "", "1", "3"]).1 =
      Outcome.ret (some (changePaymentStatusRecord exampleLib stub0 rt0 none 1 3).1) none ∧
    (changePaymentStatusRecord exampleLib stub0 rt0 none 1 3).1.Status = STATE_PERFORMING ∧
    (ChangePaymentStatus exampleLib stub0 rt0 ["APP-9", "", "1", "3"]).2.1.state "" =
      some (changePaymentStatusRecord exampleLib stub0 rt0 none 1 3).1 := by
  refine ⟨rfl, rfl, by decide, by decide, rfl, rfl, by decide, rfl⟩

theorem CheckLoanDefaultStatus_eq (a : LoanApplication) :
    CheckLoanDefaultStatus a =
      { a with Status :=
          if 3 ≤ missedCount a.RepaymentSchedule then STATE_NON_PERFORMING
          else STATE_PERFORMING } := by
  unfold CheckLoanDefaultStatus
  simp only [countMissedLoop_eq, zero_add]
  by_cases h : 3 ≤ missedCount a.RepaymentSchedule
  · have h3 : ((missedCount a.RepaymentSchedule : Nat) : Int) ≥ 3 := by omega
    rw [if_pos h3, if_pos h]
  · have h3 : ¬ ((missedCount a.RepaymentSchedule : Nat) : Int) ≥ 3 := by omega
    rw [if_neg h3, if_neg h]

theorem changeLoop_nomatch {β : Type} (stub : Stub β) (n r : Int) (sched : List PaymentDetail)
    (rt : Runtime) (h : ∀ p ∈ sched, p.InstallmentNumber ≠ n) :
    changeLoop stub n r sched rt = (sched, rt) := by
  induction sched with
  | nil => rfl
  | cons p rest ih =>
    rw [changeLoop, if_neg (h p (List.mem_cons_self _ _))]
    simp only [ih (fun x hx => h x (List.mem_cons_of_mem _ hx))]

theorem changeLoop_split {β : Type} (stub : Stub β) (n r : Int)
    (pre : List PaymentDetail) (p : PaymentDetail) (post : List PaymentDetail) (rt : Runtime)
    (hpre : ∀ x ∈ pre, x.InstallmentNumber ≠ n) (hp : p.InstallmentNumber = n) :
    changeLoop stub n r (pre ++ p :: post) rt =
      (pre ++ stampInstallment stub rt.Now.1 r p :: post, rt.Now.2) := by
  induction pre with
  | nil =>
    rw [List.nil_append, changeLoop, if_pos hp]
    rfl
  | cons x rest ih =>
    rw [List.cons_append, changeLoop, if_neg (hpre x (List.mem_cons_self _ _))]
    simp only [ih (fun y hy => hpre y (List.mem_cons_of_mem _ hy))]
    rfl

theorem exists_first_installment (n : Int) (sched : List PaymentDetail)
    (h : ∃ p ∈ sched, p.InstallmentNumber = n) :
    ∃ pre p post, sched = pre ++ p :: post ∧ (∀ x ∈ pre, x.InstallmentNumber ≠ n) ∧
      p.InstallmentNumber = n := by
  induction sched with
  | nil =>
    obtain ⟨p, hp, _⟩ := h
    cases hp
  | cons x rest ih =>
    by_cases hx : x.InstallmentNumber = n
    · exact ⟨[], x, rest, rfl, fun y hy => absurd hy (List.not_mem_nil y), hx⟩
    · obtain ⟨p, hp, hpn⟩ := h
      rcases List.mem_cons.mp hp with rfl | hr
      · exact absurd hpn hx
      · obtain ⟨pre, q, post, he, hpre, hq⟩ := ih ⟨p, hr, hpn⟩
        refine ⟨x :: pre, q, post, by rw [he]; rfl, ?_, hq⟩
        intro y hy
        rcases List.mem_cons.mp hy with rfl | hy
        · exact hx
        · exact hpre y hy

theorem changePaymentStatusRecord_fields {β : Type} (lib : Lib β) (stub : Stub β)
    (rt : Runtime) (bytes : Option β) (n r : Int) :
    (changePaymentStatusRecord lib stub rt bytes n r).1.RepaymentSchedule =
      (changeLoop stub n r (lib.decode bytes).RepaymentSchedule rt).1 ∧
    (changePaymentStatusRecord lib stub rt bytes n r).1.Status =
      (if 3 ≤ missedCount (changeLoop stub n r (lib.decode bytes).RepaymentSchedule rt).1 then
        STATE_NON_PERFORMING else STATE_PERFORMING) ∧
    (changePaymentStatusRecord lib stub rt bytes n r).1.Quotations =
      (lib.decode bytes).Quotations ∧
    (changePaymentStatusRecord lib stub rt bytes n r).1.AccountNumber =
      (lib.decode bytes).AccountNumber ∧
    (changePaymentStatusRecord lib stub rt bytes n r).1.ApplicationNumber =
      (lib.decode bytes).ApplicationNumber := by
  unfold changePaymentStatusRecord
  simp only [CheckLoanDefaultStatus_eq]
  refine ⟨?_, ?_, ?_, ?_, ?_⟩
  · rw [(SaveApplicationDetails_frame _ _ _ _).2.2.1]
  · rw [(SaveApplicationDetails_frame _ _ _ _).1]
  · rw [(SaveApplicationDetails_frame _ _ _ _).2.1]
  · rw [(SaveApplicationDetails_frame _ _ _ _).2.2.2.1]
  · rw [(SaveApplicationDetails_frame _ _ _ _).2.2.2.2]

/-- C14: for every stored application, installment number `n` and repayment
status `r`, `ChangePaymentStatus` changes at most one schedule entry: the
first entry with installment number `n` gets status `r` and metadata stamped
from the invocation while its number, principal, interest, total and
repayment date stay as they were, and every other entry is as before; when
no entry has number `n` the schedule is as before. The length never changes. -/
theorem C14_change_one_entry {β : Type} (lib : Lib β) (stub : Stub β) (rt : Runtime)
    (a0 a1 a2 a3 : String) (tail : List String) (bytes : β)
    (R : LoanApplication × Stub β × Runtime)
    (hs : stub.state a0 = some bytes)
    (hR : R = changePaymentStatusRecord lib stub rt (some bytes) (lib.Atoi a2) (lib.Atoi a3)) :
    ChangePaymentStatus lib stub rt (a0 :: a1 :: a2 :: a3 :: tail) =
      (Outcome.ret (some (lib.Marshal R.1)) none, R.2) ∧
    ((∀ p ∈ (lib.Unmarshal bytes).RepaymentSchedule, p.InstallmentNumber ≠ lib.Atoi a2) →
      R.1.RepaymentSchedule = (lib.Unmarshal bytes).RepaymentSchedule) ∧
    ((∃ p ∈ (lib.Unmarshal bytes).RepaymentSchedule, p.InstallmentNumber = lib.Atoi a2) →
      ∃ pre p post, (lib.Unmarshal bytes).RepaymentSchedule = pre ++ p :: post ∧
        (∀ x ∈ pre, x.InstallmentNumber ≠ lib.Atoi a2) ∧ p.InstallmentNumber = lib.Atoi a2 ∧
        R.1.RepaymentSchedule =
          pre ++ stampInstallment stub (rt.Now.1) (lib.Atoi a3) p :: post ∧
        (stampInstallment stub (rt.Now.1) (lib.Atoi a3) p).RepaymentStatus = lib.Atoi a3 ∧
        (stampInstallment stub (rt.Now.1) (lib.Atoi a3) p).InstallmentNumber =
          p.InstallmentNumber ∧
        (stampInstallment stub (rt.Now.1) (lib.Atoi a3) p).PrincipalAmount = p.PrincipalAmount ∧
        (stampInstallment stub (rt.Now.1) (lib.Atoi a3) p).InterestAmount = p.InterestAmount ∧
        (stampInstallment stub (rt.Now.1) (lib.Atoi a3) p).TotalEMI = p.TotalEMI ∧
        (stampInstallment stub (rt.Now.1) (lib.Atoi a3) p).RepaymentDate = p.RepaymentDate) ∧
    R.1.RepaymentSchedule.length = (lib.Unmarshal bytes).RepaymentSchedule.length := by
  subst hR
  have hf := (changePaymentStatusRecord_fields lib stub rt (some bytes) (lib.Atoi a2)
    (lib.Atoi a3)).1
  simp only [Lib.decode] at hf
  have hsplit : (∃ p ∈ (lib.Unmarshal bytes).RepaymentSchedule,
      p.InstallmentNumber = lib.Atoi a2) →
      ∃ pre p post, (lib.Unmarshal bytes).RepaymentSchedule = pre ++ p :: post ∧
        (∀ x ∈ pre, x.InstallmentNumber ≠ lib.Atoi a2) ∧ p.InstallmentNumber = lib.Atoi a2 ∧
        (changePaymentStatusRecord lib stub rt (some bytes) (lib.Atoi a2)
          (lib.Atoi a3)).1.RepaymentSchedule =
          pre ++ stampInstallment stub (rt.Now.1) (lib.Atoi a3) p :: post := by
    intro h
    obtain ⟨pre, p, post, he, hpre, hp⟩ := exists_first_installment _ _ h
    refine ⟨pre, p, post, he, hpre, hp, ?_⟩
    rw [hf, he, changeLoop_split stub _ _ pre p post rt hpre hp]
  refine ⟨?_, ?_, ?_, ?_⟩
  · simp only [ChangePaymentStatus, Stub.GetState, hs]
  · intro h
    rw [hf, changeLoop_nomatch stub _ _ _ rt h]
  · intro h
    obtain ⟨pre, p, post, he, hpre, hp, hres⟩ := hsplit h
    exact ⟨pre, p, post, he, hpre, hp, hres, rfl, rfl, rfl, rfl, rfl, rfl⟩
  · by_cases h : ∃ p ∈ (lib.Unmarshal bytes).RepaymentSchedule,
        p.InstallmentNumber = lib.Atoi a2
    · obtain ⟨pre, p, post, he, _, _, hres⟩ := hsplit h
      rw [hres, he]
      simp
    · rw [hf, changeLoop_nomatch stub _ _ _ rt (by
        intro p hp hn
        exact h ⟨p, hp, hn⟩)]

/-- Witness for C14: on the stored loan `APP-5`, setting installment 2 to
`RECOVERED` changes the second entry only, and addressing installment 9
changes nothing. -/
theorem C14_change_one_entry_witness :
    stub5.state "APP-5" = some loan5 ∧
    (changePaymentStatusRecord exampleLib stub5 rt0 (some loan5) (exampleLib.Atoi "2")
      (exampleLib.Atoi "2")).1.RepaymentSchedule.length = 4 ∧
    (changePaymentStatusRecord exampleLib stub5 rt0 (some loan5) (exampleLib.Atoi "2")
      (exampleLib.Atoi "2")).1.RepaymentSchedule.map (fun p => p.RepaymentStatus) =
        [1, 2, 1, 1] ∧
    (∀ p ∈ (exampleLib.Unmarshal loan5).RepaymentSchedule,
      p.InstallmentNumber ≠ exampleLib.Atoi "9") ∧
    (changePaymentStatusRecord exampleLib stub5 rt0 (some loan5) (exampleLib.Atoi "9")
      (exampleLib.Atoi "3")).1.RepaymentSchedule = loan5.RepaymentSchedule := by
  have h9 : ∀ p ∈ (exampleLib.Unmarshal loan5).RepaymentSchedule,
      p.InstallmentNumber ≠ exampleLib.Atoi "9" := by decide
  exact ⟨rfl,
    (C14_change_one_entry exampleLib stub5 rt0 "APP-5" "" "2" "2" [] loan5 _ rfl rfl).2.2.2,
    by decide, h9,
    (C14_change_one_entry exampleLib stub5 rt0 "APP-5" "" "9" "3" [] loan5 _ rfl rfl).2.1 h9⟩

theorem SaveApplicationDetails_transactions {β : Type} (lib : Lib β) (stub : Stub β)
    (rt : Runtime) (a : LoanApplication) :
    (SaveApplicationDetails lib stub rt a).1.Transactions =
      a.Transactions ++
        (if stub.putErr stub.putPos = false then [(GetTransactionMetadata stub rt a).1]
         else []) ∧
    (GetTransactionMetadata stub rt a).1.ApplicationState = a.Status := by
  rw [SaveApplicationDetails_fst]
  split_ifs <;> simp [GetTransactionMetadata]

theorem SaveApplicationDetails_transactions_exists {β : Type} (lib : Lib β) (stub : Stub β)
    (rt : Runtime) (a : LoanApplication) :
    ∃ m : TransactionMetadata, m.ApplicationState = a.Status ∧
      (SaveApplicationDetails lib stub rt a).1.Transactions =
        a.Transactions ++ (if stub.putErr stub.putPos = false then [m] else []) :=
  ⟨_, (SaveApplicationDetails_transactions lib stub rt a).2,
    (SaveApplicationDetails_transactions lib stub rt a).1⟩

/-- C20 as stated fails: on a ledger whose writes fail, `ConfirmBid` on the
stored application `APP-1` returns a record whose audit trail is the stored
one, two entries long; it has not been extended by an entry. -/
theorem C20_counterexample :
    stubFailing.state "APP-1" = some app1Record ∧
    ConfirmBid exampleLib stubFailing rt0 ["APP-1", "7", "2"] =
      (Outcome.ret (some (confirmBidRecord exampleLib stubFailing rt0 (some app1Record) 7 2).1)
        none, (confirmBidRecord exampleLib stubFailing rt0 (some app1Record) 7 2).2) ∧
    app1Record.Transactions.length = 2 ∧
    (confirmBidRecord exampleLib stubFailing rt0 (some app1Record) 7 2).1.Transactions.length
      = 2 ∧
    (confirmBidRecord exampleLib stubFailing rt0 (some app1Record) 7 2).1.Transactions =
      app1Record.Transactions := by
  refine ⟨rfl, rfl, by decide, by decide, by decide⟩

/-- C20 (amended): `SaveApplicationDetails` returns the record with its audit
trail followed by exactly one new entry, whose application state is the
status of the record, when its first store write succeeds, and the record
as it was when that write fails; no other field changes. Hence `ConfirmBid`
and `ChangePaymentStatus` on a stored application return the stored audit
trail, unchanged and in order, followed by one new entry when the first
store write of the call succeeds and by nothing when it fails. -/
theorem C20_audit_append {β : Type} (lib : Lib β) (stub : Stub β) (rt : Runtime)
    (a : LoanApplication) (bytes : β) (bn s n r : Int) :
    (stub.putErr stub.putPos = false →
      (SaveApplicationDetails lib stub rt a).1 =
        { a with Transactions := a.Transactions ++ [(GetTransactionMetadata stub rt a).1] } ∧
      (GetTransactionMetadata stub rt a).1.ApplicationState = a.Status) ∧
    (stub.putErr stub.putPos = true → (SaveApplicationDetails lib stub rt a).1 = a) ∧
    (∃ m : TransactionMetadata,
      m.ApplicationState = (confirmBidRecord lib stub rt (some bytes) bn s).1.Status ∧
      (confirmBidRecord lib stub rt (some bytes) bn s).1.Transactions =
        (lib.Unmarshal bytes).Transactions ++
          (if stub.putErr stub.putPos = false then [m] else [])) ∧
    (∃ m : TransactionMetadata,
      m.ApplicationState = (changePaymentStatusRecord lib stub rt (some bytes) n r).1.Status ∧
      (changePaymentStatusRecord lib stub rt (some bytes) n r).1.Transactions =
        (lib.Unmarshal bytes).Transactions ++
          (if stub.putErr stub.putPos = false then [m] else [])) := by
  refine ⟨?_, ?_, ?_, ?_⟩
  · intro h
    rw [SaveApplicationDetails_fst, if_pos h]
    exact ⟨rfl, rfl⟩
  · intro h
    rw [SaveApplicationDetails_fst, if_neg (by simp [h])]
  · have hx := SaveApplicationDetails_transactions_exists lib stub
      (confirmLoop bn s (lib.decode (some bytes)).Quotations
        ((lib.decode (some bytes)).AccountNumber, (lib.decode (some bytes)).RepaymentSchedule,
          rt)).2.2.2
      { lib.decode (some bytes) with
          Status := s
          Quotations := (confirmLoop bn s (lib.decode (some bytes)).Quotations
            ((lib.decode (some bytes)).AccountNumber,
              (lib.decode (some bytes)).RepaymentSchedule, rt)).1
          AccountNumber := (confirmLoop bn s (lib.decode (some bytes)).Quotations
            ((lib.decode (some bytes)).AccountNumber,
              (lib.decode (some bytes)).RepaymentSchedule, rt)).2.1
          RepaymentSchedule := (confirmLoop bn s (lib.decode (some bytes)).Quotations
            ((lib.decode (some bytes)).AccountNumber,
              (lib.decode (some bytes)).RepaymentSchedule, rt)).2.2.1 }
    obtain ⟨m, hm1, hm2⟩ := hx
    refine ⟨m, ?_, hm2⟩
    rw [hm1, (confirmBidRecord_fields lib stub rt (some bytes) bn s).1]
  · have hx := SaveApplicationDetails_transactions_exists lib stub
      (changeLoop stub n r (lib.decode (some bytes)).RepaymentSchedule rt).2
      (CheckLoanDefaultStatus
        { lib.decode (some bytes) with
            RepaymentSchedule :=
              (changeLoop stub n r (lib.decode (some bytes)).RepaymentSchedule rt).1 })
    obtain ⟨m, hm1, hm2⟩ := hx
    refine ⟨m, ?_, ?_⟩
    · rw [hm1]
      unfold changePaymentStatusRecord
      simp only []
      rw [(SaveApplicationDetails_frame _ _ _ _).1]
    · have ht : ∀ y : LoanApplication,
          (CheckLoanDefaultStatus y).Transactions = y.Transactions := by
        intro y
        rw [CheckLoanDefaultStatus_eq]
      rw [ht] at hm2
      exact hm2

/-- Witness for C20: on the ledger holding `APP-1`, whose writes succeed,
`ConfirmBid` returns three audit entries, the stored two followed by one with
application state `BID_ACCEPTED`. -/
theorem C20_audit_append_witness :
    afterApp1.1.putErr afterApp1.1.putPos = false ∧
    (SaveApplicationDetails exampleLib afterApp1.1 afterApp1.2 app1Record).1.Transactions.length
      = 3 ∧
    (confirmBidRecord exampleLib afterApp1.1 afterApp1.2 (some app1Record) 7
      2).1.Transactions.map (fun t => t.ApplicationState) = [0, 1, 2] := by
  have h := (C20_audit_append exampleLib afterApp1.1 afterApp1.2 app1Record app1Record
    7 2 1 3).1 rfl
  refine ⟨rfl, ?_, by decide⟩
  rw [h.1]
  decide

/-! ## Lemmas on sequences of calls -/

/-- C16 as stated fails: on `APP-1`, after create, accepted bid and a missed
installment the stored status is `PERFORMING`, and a further `ConfirmBid`
with status 1 takes it back to `QUOTATIONS_RECEIVED`; `ChangePaymentStatus`
right after create goes from `QUOTATIONS_RECEIVED` to `PERFORMING`; and
`ConfirmBid` with status 9 stores status 9. None is a lifecycle edge. -/
theorem C16_counterexample :
    statusAfter [call "CreateLoanApplication" app1Args, call "ConfirmBid" ["APP-1", "7", "2"],
      call "ChangePaymentStatus" ["APP-1", "", "1", "3"]] = some STATE_PERFORMING ∧
    statusAfter [call "CreateLoanApplication" app1Args, call "ConfirmBid" ["APP-1", "7", "2"],
      call "ChangePaymentStatus" ["APP-1", "", "1", "3"],
      call "ConfirmBid" ["APP-1", "7", "1"]] = some STATE_QUOTATIONS_RECEIVED ∧
    lifecycleEdge STATE_PERFORMING STATE_QUOTATIONS_RECEIVED = false ∧
    statusAfter [call "CreateLoanApplication" app1Args] = some STATE_QUOTATIONS_RECEIVED ∧
    statusAfter [call "CreateLoanApplication" app1Args,
      call "ChangePaymentStatus" ["APP-1", "", "1", "3"]] = some STATE_PERFORMING ∧
    lifecycleEdge STATE_QUOTATIONS_RECEIVED STATE_PERFORMING = false ∧
    statusAfter [call "CreateLoanApplication" app1Args,
      call "ConfirmBid" ["APP-1", "7", "9"]] = some 9 ∧
    lifecycleEdge STATE_QUOTATIONS_RECEIVED 9 = false := by
  refine ⟨by decide, by decide, by decide, by decide, by decide, by decide, by decide,
    by decide⟩

/-- C16 (amended): `CreateLoanApplication` takes a new record from `APPLIED`
to `QUOTATIONS_RECEIVED`; every `ConfirmBid` leaves the status equal to the
bid status it is given, whatever the status before; every
`ChangePaymentStatus` leaves `PERFORMING` or `NON_PERFORMING`, whatever the
status before. So the status change is a lifecycle edge when `ConfirmBid` is
called with `BID_ACCEPTED` or `BID_REJECTED` on a record at
`QUOTATIONS_RECEIVED` and when `ChangePaymentStatus` is called on a record at
`BID_ACCEPTED`, `BID_REJECTED`, `PERFORMING` or `NON_PERFORMING`. -/
theorem C16_status_transitions {β : Type} (lib : Lib β) (stub : Stub β) (rt : Runtime) :
    (∀ a0 make model a3 ssn a5 a6 a7 a8 : String,
      (createRecord lib stub rt a0 make model a3 ssn a5 a6 a7 a8).1.Status =
        STATE_QUOTATIONS_RECEIVED ∧
      lifecycleEdge STATE_APPLIED
        (createRecord lib stub rt a0 make model a3 ssn a5 a6 a7 a8).1.Status = true) ∧
    (∀ (bytes : Option β) (bn s : Int), (confirmBidRecord lib stub rt bytes bn s).1.Status = s) ∧
    (∀ (bytes : Option β) (n r : Int),
      (changePaymentStatusRecord lib stub rt bytes n r).1.Status = STATE_PERFORMING ∨
      (changePaymentStatusRecord lib stub rt bytes n r).1.Status = STATE_NON_PERFORMING) ∧
    (∀ (bytes : Option β) (bn s : Int),
      (lib.decode bytes).Status = STATE_QUOTATIONS_RECEIVED →
      (s = STATE_BID_ACCEPTED ∨ s = STATE_BID_REJECTED) →
      lifecycleEdge (lib.decode bytes).Status
        (confirmBidRecord lib stub rt bytes bn s).1.Status = true) ∧
    (∀ (bytes : Option β) (n r : Int),
      ((lib.decode bytes).Status = STATE_BID_ACCEPTED ∨
        (lib.decode bytes).Status = STATE_BID_REJECTED ∨
        (lib.decode bytes).Status = STATE_PERFORMING ∨
        (lib.decode bytes).Status = STATE_NON_PERFORMING) →
      lifecycleEdge (lib.decode bytes).Status
        (changePaymentStatusRecord lib stub rt bytes n r).1.Status = true) := by
  have hcreate : ∀ a0 make model a3 ssn a5 a6 a7 a8 : String,
      (createRecord lib stub rt a0 make model a3 ssn a5 a6 a7 a8).1.Status =
        STATE_QUOTATIONS_RECEIVED := by
    intro a0 make model a3 ssn a5 a6 a7 a8
    unfold createRecord
    simp only []
    rw [(SaveApplicationDetails_frame _ _ _ _).1]
  have hchange : ∀ (bytes : Option β) (n r : Int),
      (changePaymentStatusRecord lib stub rt bytes n r).1.Status = STATE_PERFORMING ∨
      (changePaymentStatusRecord lib stub rt bytes n r).1.Status = STATE_NON_PERFORMING := by
    intro bytes n r
    rw [(changePaymentStatusRecord_fields lib stub rt bytes n r).2.1]
    split_ifs
    · exact Or.inr rfl
    · exact Or.inl rfl
  refine ⟨?_, ?_, hchange, ?_, ?_⟩
  · intro a0 make model a3 ssn a5 a6 a7 a8
    refine ⟨hcreate _ _ _ _ _ _ _ _ _, ?_⟩
    rw [hcreate]
    decide
  · intro bytes bn s
    exact (confirmBidRecord_fields lib stub rt bytes bn s).1
  · intro bytes bn s h1 hs
    rw [(confirmBidRecord_fields lib stub rt bytes bn s).1, h1]
    rcases hs with rfl | rfl <;> decide
  · intro bytes n r h
    rcases hchange bytes n r with h2 | h2 <;> rw [h2] <;>
      rcases h with h | h | h | h <;> rw [h] <;> decide

/-- Witness for C16: on `APP-1`, `ConfirmBid` with `BID_ACCEPTED` goes from
`QUOTATIONS_RECEIVED` to `BID_ACCEPTED`, a lifecycle edge. -/
theorem C16_status_transitions_witness :
    (exampleLib.decode (some app1Record)).Status = STATE_QUOTATIONS_RECEIVED ∧
    lifecycleEdge (exampleLib.decode (some app1Record)).Status
      (confirmBidRecord exampleLib afterApp1.1 afterApp1.2 (some app1Record) 7
        STATE_BID_ACCEPTED).1.Status = true ∧
    (confirmBidRecord exampleLib afterApp1.1 afterApp1.2 (some app1Record) 7
        STATE_BID_ACCEPTED).1.Status = STATE_BID_ACCEPTED :=
  ⟨by decide,
    (C16_status_transitions exampleLib afterApp1.1 afterApp1.2).2.2.2.1 (some app1Record) 7
      STATE_BID_ACCEPTED (by decide) (Or.inl rfl),
    (C16_status_transitions exampleLib afterApp1.1 afterApp1.2).2.1 (some app1Record) 7
      STATE_BID_ACCEPTED⟩

/-! ## Invariants of the stored record along a sequence of invocations -/

theorem SaveApplicationDetails_state_cases {β : Type} (lib : Lib β) (stub : Stub β)
    (rt : Runtime) (a : LoanApplication) (j : String) :
    (SaveApplicationDetails lib stub rt a).2.1.state j = stub.state j ∨
    (j = a.ApplicationNumber ∧
      ((SaveApplicationDetails lib stub rt a).2.1.state j = some (lib.Marshal a) ∨
       (SaveApplicationDetails lib stub rt a).2.1.state j =
        some (lib.Marshal (SaveApplicationDetails lib stub rt a).1))) := by
  unfold SaveApplicationDetails Stub.PutState
  by_cases hj : j = a.ApplicationNumber <;>
    by_cases h1 : stub.putErr stub.putPos = true <;>
    by_cases h2 : stub.putErr (stub.putPos + 1) = true <;>
    simp [hj, h1, h2, GetTransactionMetadata]

theorem SaveApplicationDetails_modulo {β : Type} (lib : Lib β) (stub : Stub β)
    (rt : Runtime) (a : LoanApplication) :
    (SaveApplicationDetails lib stub rt a).1 =
      { a with Transactions := (SaveApplicationDetails lib stub rt a).1.Transactions } := by
  rw [SaveApplicationDetails_fst]
  split_ifs <;> rfl

theorem confirmBidRecord_eq_save {β : Type} (lib : Lib β) (stub : Stub β) (rt : Runtime)
    (bytes : Option β) (bn s : Int) :
    confirmBidRecord lib stub rt bytes bn s =
      SaveApplicationDetails lib stub (confirmUpdate (lib.decode bytes) bn s rt).2
        (confirmUpdate (lib.decode bytes) bn s rt).1 := rfl

theorem changePaymentStatusRecord_eq_save {β : Type} (lib : Lib β) (stub : Stub β)
    (rt : Runtime) (bytes : Option β) (n r : Int) :
    changePaymentStatusRecord lib stub rt bytes n r =
      SaveApplicationDetails lib stub (changeUpdate stub (lib.decode bytes) n r rt).2
        (changeUpdate stub (lib.decode bytes) n r rt).1 := rfl

theorem SaveApplicationDetails_inv {β : Type} (lib : Lib β)
    (hrt : ∀ a, lib.Unmarshal (lib.Marshal a) = a) (k : String)
    (P : LoanApplication → Prop)
    (hT : ∀ (a : LoanApplication) (t : List TransactionMetadata),
      P a → P { a with Transactions := t })
    (stub : Stub β) (rt : Runtime) (a : LoanApplication)
    (hinv : ∀ b, stub.state k = some b →
      (lib.Unmarshal b).ApplicationNumber = k ∧ P (lib.Unmarshal b))
    (ha : a.ApplicationNumber = k → P a) :
    ∀ b, (SaveApplicationDetails lib stub rt a).2.1.state k = some b →
      (lib.Unmarshal b).ApplicationNumber = k ∧ P (lib.Unmarshal b) := by
  intro b hb
  rcases SaveApplicationDetails_state_cases lib stub rt a k with h | ⟨hk, h | h⟩
  · rw [h] at hb
    exact hinv b hb
  · rw [h] at hb
    cases hb
    rw [hrt]
    exact ⟨hk.symm, ha hk.symm⟩
  · rw [h] at hb
    cases hb
    rw [hrt, SaveApplicationDetails_modulo]
    exact ⟨hk.symm, hT _ _ (ha hk.symm)⟩

theorem confirmUpdate_number (a : LoanApplication) (bn s : Int) (rt : Runtime) :
    (confirmUpdate a bn s rt).1.ApplicationNumber = a.ApplicationNumber := rfl

theorem changeUpdate_number {β : Type} (stub : Stub β) (a : LoanApplication) (n r : Int)
    (rt : Runtime) :
    (changeUpdate stub a n r rt).1.ApplicationNumber = a.ApplicationNumber := by
  unfold changeUpdate
  rw [CheckLoanDefaultStatus_eq]

theorem decode_inv {β : Type} (lib : Lib β) (k : String) (hk : k ≠ "")
    (P : LoanApplication → Prop) (ledger : String → Option β)
    (hinv : ∀ b, ledger k = some b →
      (lib.Unmarshal b).ApplicationNumber = k ∧ P (lib.Unmarshal b)) :
    (lib.decode (ledger k)).ApplicationNumber = k → P (lib.decode (ledger k)) := by
  intro h
  cases hl : ledger k with
  | none =>
    rw [hl] at h
    exact absurd h.symm hk
  | some b => exact (hinv b hl).2

theorem runInvocation_inv {β : Type} (lib : Lib β)
    (hrt : ∀ a, lib.Unmarshal (lib.Marshal a) = a) (k : String) (hk : k ≠ "")
    (P : LoanApplication → Prop) (Allowed : Int → Int → Prop)
    (hT : ∀ (a : LoanApplication) (t : List TransactionMetadata),
      P a → P { a with Transactions := t })
    (hP0 : ∀ a : LoanApplication, a.Quotations = [] → a.RepaymentSchedule = [] → P a)
    (hP1 : ∀ (a : LoanApplication) (p : EvaluationParams) (rt1 rt2 rt3 rt4 : Runtime),
      a.Quotations = [ (GetQuoteFromLender1 p rt1).1, (GetQuoteFromLender2 p rt2).1,
        (GetQuoteFromLender3 p rt3).1, (GetQuoteFromLender4 p rt4).1 ] →
      a.RepaymentSchedule = [] → P a)
    (hC : ∀ (a : LoanApplication) (bn s : Int) (rt : Runtime),
      Allowed bn s → P a → P (confirmUpdate a bn s rt).1)
    (hG : ∀ (stub : Stub β) (a : LoanApplication) (n r : Int) (rt : Runtime),
      P a → P (changeUpdate stub a n r rt).1)
    (w : (String → Option β) × Runtime) (i : Invocation)
    (hi : i.args.head? = some k)
    (hA : ∀ a0 a1 a2 tail, i.function = "ConfirmBid" → i.args = a0 :: a1 :: a2 :: tail →
      Allowed (lib.Atoi a1) (lib.Atoi a2))
    (hinv : ∀ b, w.1 k = some b →
      (lib.Unmarshal b).ApplicationNumber = k ∧ P (lib.Unmarshal b)) :
    ∀ b, (runInvocation lib w i).2.1.state k = some b →
      (lib.Unmarshal b).ApplicationNumber = k ∧ P (lib.Unmarshal b) := by
  obtain ⟨fn, args, tx, ts, cm, pe⟩ := i
  cases args with
  | nil => cases hi
  | cons a0 rest =>
    have ha0 : a0 = k := by simpa using hi
    subst ha0
    unfold runInvocation Invoke
    simp only []
    by_cases hf1 : fn = "CreateLoanApplication"
    · rw [if_pos hf1]
      unfold CreateLoanApplication
      simp only [if_neg hk, Stub.GetState]
      cases hl : w.1 a0 with
      | some b0 =>
        exact hinv
      | none =>
        simp only []
        match rest with
        | [] => exact hinv
        | [_] => exact hinv
        | [_, _] => exact hinv
        | [_, _, _] => exact hinv
        | [_, _, _, _] => exact hinv
        | [_, _, _, _, _] => exact hinv
        | [_, _, _, _, _, _] => exact hinv
        | [_, _, _, _, _, _, _] => exact hinv
        | make :: model :: a3 :: ssn :: a5 :: a6 :: a7 :: a8 :: tail =>
          simp only []
          unfold createRecord
          simp only []
          apply SaveApplicationDetails_inv lib hrt a0 P hT
          · apply SaveApplicationDetails_inv lib hrt a0 P hT
            · exact hinv
            · intro _
              exact hP0 _ rfl rfl
          · intro _
            refine hP1 _ _ _ _ _ _ rfl ?_
            show (SaveApplicationDetails lib _ _ _).1.RepaymentSchedule = []
            rw [(SaveApplicationDetails_frame _ _ _ _).2.2.1]
    · rw [if_neg hf1]
      by_cases hf2 : fn = "ConfirmBid"
      · rw [if_pos hf2]
        unfold ConfirmBid
        match rest with
        | [] => exact hinv
        | [_] => exact hinv
        | a1 :: a2 :: tail =>
          simp only [Stub.GetState]
          rw [confirmBidRecord_eq_save]
          apply SaveApplicationDetails_inv lib hrt a0 P hT
          · exact hinv
          · intro h
            rw [confirmUpdate_number] at h
            exact hC _ _ _ _ (hA a0 a1 a2 tail hf2 rfl) (decode_inv lib a0 hk P w.1 hinv h)
      · rw [if_neg hf2]
        by_cases hf3 : fn = "ChangePaymentStatus"
        · rw [if_pos hf3]
          unfold ChangePaymentStatus
          match rest with
          | [] => exact hinv
          | [_] => exact hinv
          | [_, _] => exact hinv
          | a1 :: a2 :: a3 :: tail =>
            simp only [Stub.GetState]
            rw [changePaymentStatusRecord_eq_save]
            apply SaveApplicationDetails_inv lib hrt a0 P hT
            · exact hinv
            · intro h
              rw [changeUpdate_number] at h
              exact hG _ _ _ _ _ (decode_inv lib a0 hk P w.1 hinv h)
        · rw [if_neg hf3]
          exact hinv

theorem runTrace_inv {β : Type} (lib : Lib β)
    (hrt : ∀ a, lib.Unmarshal (lib.Marshal a) = a) (k : String) (hk : k ≠ "")
    (P : LoanApplication → Prop) (Allowed : Int → Int → Prop)
    (hT : ∀ (a : LoanApplication) (t : List TransactionMetadata),
      P a → P { a with Transactions := t })
    (hP0 : ∀ a : LoanApplication, a.Quotations = [] → a.RepaymentSchedule = [] → P a)
    (hP1 : ∀ (a : LoanApplication) (p : EvaluationParams) (rt1 rt2 rt3 rt4 : Runtime),
      a.Quotations = [ (GetQuoteFromLender1 p rt1).1, (GetQuoteFromLender2 p rt2).1,
        (GetQuoteFromLender3 p rt3).1, (GetQuoteFromLender4 p rt4).1 ] →
      a.RepaymentSchedule = [] → P a)
    (hC : ∀ (a : LoanApplication) (bn s : Int) (rt : Runtime),
      Allowed bn s → P a → P (confirmUpdate a bn s rt).1)
    (hG : ∀ (stub : Stub β) (a : LoanApplication) (n r : Int) (rt : Runtime),
      P a → P (changeUpdate stub a n r rt).1)
    (tr : List Invocation) (w : (String → Option β) × Runtime)
    (hi : ∀ i ∈ tr, i.args.head? = some k)
    (hA : ∀ i ∈ tr, ∀ a0 a1 a2 tail, i.function = "ConfirmBid" →
      i.args = a0 :: a1 :: a2 :: tail → Allowed (lib.Atoi a1) (lib.Atoi a2))
    (hinv : ∀ b, w.1 k = some b →
      (lib.Unmarshal b).ApplicationNumber = k ∧ P (lib.Unmarshal b)) :
    ∀ b, (runTrace lib w tr).1 k = some b →
      (lib.Unmarshal b).ApplicationNumber = k ∧ P (lib.Unmarshal b) := by
  induction tr generalizing w with
  | nil => exact hinv
  | cons i rest ih =>
    rw [runTrace]
    apply ih
    · exact fun j hj => hi j (List.mem_cons_of_mem _ hj)
    · exact fun j hj => hA j (List.mem_cons_of_mem _ hj)
    · exact runInvocation_inv lib hrt k hk P Allowed hT hP0 hP1 hC hG w i
        (hi i (List.mem_cons_self _ _)) (hA i (List.mem_cons_self _ _)) hinv

theorem lenderQuote_not_winning (k : Fin 4) (p : EvaluationParams) (rt : Runtime) :
    (lenderQuote k p rt).1.IsWinningBid = false := by
  rw [lenderQuote_eq_quotePolicy]
  unfold quotePolicy
  split_ifs <;> rfl

theorem lenderQuote_tenure (k : Fin 4) (p : EvaluationParams) (rt : Runtime) :
    (lenderQuote k p rt).1.Tenure = (if Eligible p then p.Tenure else 0) := by
  rw [lenderQuote_eq_quotePolicy]
  by_cases h : Eligible p
  · rw [quotePolicy_eligible _ _ _ _ h, if_pos h]
  · rw [(quotePolicy_ineligible _ _ _ _ h).2.2.2.1, if_neg h]

theorem mem_acceptedNumbers {β : Type} (lib : Lib β) (tr : List Invocation) (i : Invocation)
    (hi : i ∈ tr) (a0 a1 a2 : String) (tail : List String)
    (hf : i.function = "ConfirmBid") (ha : i.args = a0 :: a1 :: a2 :: tail)
    (hs : lib.Atoi a2 = STATE_BID_ACCEPTED) :
    lib.Atoi a1 ∈ acceptedNumbers lib tr := by
  unfold acceptedNumbers
  refine List.mem_filterMap.mpr ⟨i, hi, ?_⟩
  unfold acceptedNumber
  rw [if_pos hf, ha]
  simp only [hs, if_true]

theorem winnerCount_markWinner (bn : Int) (qs : List BiddingDetails)
    (h0 : winnerCount qs = 0) :
    winnerCount (qs.map (markWinner bn)) = matchCount bn qs := by
  unfold winnerCount matchCount at *
  rw [List.countP_map]
  apply List.countP_congr
  intro q hq
  have hnot : ¬ (q.IsWinningBid = true) := (List.countP_eq_zero.mp h0) q hq
  unfold markWinner
  by_cases hb : q.BiddingNumber = bn
  · simp [hb]
  · simp [hb, hnot]

/-- C11 as stated fails: confirming bidding number 0 on the rejected
application `APP-2` flags all four quotations, and confirming bidding numbers
7 and then 8 on `APP-1` leaves two quotations flagged. -/
theorem C11_counterexample :
    winningFlagsAfter "APP-2" [call "CreateLoanApplication" app2Args,
      call "ConfirmBid" ["APP-2", "0", "2"]] = some [true, true, true, true] ∧
    winningFlagsAfter "APP-1" [call "CreateLoanApplication" app1Args,
      call "ConfirmBid" ["APP-1", "7", "2"],
      call "ConfirmBid" ["APP-1", "8", "2"]] = some [true, true, false, false] := by
  refine ⟨by decide, by decide⟩

/-- C11 (amended): take a codec that decodes what it encodes, a ledger holding
nothing under the non-empty application number `k`, and any sequence of
invocations on `k`. In the record then stored under `k`, a quotation is
flagged as winning only if its bidding number was passed to some `ConfirmBid`
call of the sequence with status `BID_ACCEPTED`: none is flagged if no bid was
ever accepted, and at most one is when every accepted call passed the same
bidding number and at most one quotation carries it. An accepted `ConfirmBid`
on a record without winners, with a number carried by exactly one quotation,
returns exactly one winner. -/
theorem C11_winners {β : Type} (lib : Lib β) (hrt : ∀ a, lib.Unmarshal (lib.Marshal a) = a)
    (k : String) (hk : k ≠ "") (ledger : String → Option β) (rt : Runtime)
    (hfresh : ledger k = none) (tr : List Invocation)
    (hon : ∀ i ∈ tr, i.args.head? = some k) (b : β)
    (hb : (runTrace lib (ledger, rt) tr).1 k = some b) :
    (∀ q ∈ (lib.Unmarshal b).Quotations, q.IsWinningBid = true →
      q.BiddingNumber ∈ acceptedNumbers lib tr) ∧
    (acceptedNumbers lib tr = [] → winnerCount (lib.Unmarshal b).Quotations = 0) ∧
    (∀ bn : Int, (∀ x ∈ acceptedNumbers lib tr, x = bn) →
      matchCount bn (lib.Unmarshal b).Quotations ≤ 1 →
      winnerCount (lib.Unmarshal b).Quotations ≤ 1) ∧
    (∀ (stub : Stub β) (rt1 : Runtime) (bytes : Option β) (bn : Int),
      winnerCount (lib.decode bytes).Quotations = 0 →
      matchCount bn (lib.decode bytes).Quotations = 1 →
      winnerCount (confirmBidRecord lib stub rt1 bytes bn STATE_BID_ACCEPTED).1.Quotations = 1) := by
  have key : ∀ q ∈ (lib.Unmarshal b).Quotations, q.IsWinningBid = true →
      q.BiddingNumber ∈ acceptedNumbers lib tr := by
    refine (runTrace_inv lib hrt k hk
      (fun a => ∀ q ∈ a.Quotations, q.IsWinningBid = true →
        q.BiddingNumber ∈ acceptedNumbers lib tr)
      (fun bn s => s = STATE_BID_ACCEPTED → bn ∈ acceptedNumbers lib tr)
      ?_ ?_ ?_ ?_ ?_ tr (ledger, rt) hon ?_ ?_ b hb).2
    · intro a t h
      exact h
    · intro a h _ q hq
      rw [h] at hq
      cases hq
    · intro a p rt1 rt2 rt3 rt4 h _ q hq hw
      rw [h] at hq
      have e1 : GetQuoteFromLender1 = lenderQuote 0 := rfl
      have e2 : GetQuoteFromLender2 = lenderQuote 1 := rfl
      have e3 : GetQuoteFromLender3 = lenderQuote 2 := rfl
      have e4 : GetQuoteFromLender4 = lenderQuote 3 := rfl
      rw [e1, e2, e3, e4] at hq
      simp only [List.mem_cons, List.mem_singleton, List.not_mem_nil, or_false] at hq
      rcases hq with rfl | rfl | rfl | rfl <;>
        rw [lenderQuote_not_winning] at hw <;> cases hw
    · intro a bn s rt1 hall h q hq hw
      have hq2 : q ∈ (confirmLoop bn s a.Quotations
          (a.AccountNumber, a.RepaymentSchedule, rt1)).1 := hq
      rw [confirmLoop_quotations_any] at hq2
      by_cases hs : s = STATE_BID_ACCEPTED
      · rw [if_pos hs] at hq2
        obtain ⟨q0, hq0, rfl⟩ := List.mem_map.mp hq2
        unfold markWinner at hw ⊢
        by_cases hbn : q0.BiddingNumber = bn
        · rw [if_pos hbn]
          show q0.BiddingNumber ∈ _
          rw [hbn]
          exact hall hs
        · rw [if_neg hbn] at hw ⊢
          exact h q0 hq0 hw
      · rw [if_neg hs] at hq2
        exact h q hq2 hw
    · intro stub a n r rt1 h q hq hw
      have hq2 : q ∈ a.Quotations := by
        unfold changeUpdate at hq
        rw [CheckLoanDefaultStatus_eq] at hq
        exact hq
      exact h q hq2 hw
    · intro i hi a0 a1 a2 tail hf ha hs
      exact mem_acceptedNumbers lib tr i hi a0 a1 a2 tail hf ha hs
    · intro b0 hb0
      rw [show (ledger, rt).1 k = ledger k from rfl, hfresh] at hb0
      cases hb0
  refine ⟨key, ?_, ?_, ?_⟩
  · intro hnil
    unfold winnerCount
    rw [List.countP_eq_zero]
    intro q hq hw
    have := key q hq hw
    rw [hnil] at this
    cases this
  · intro bn hall hone
    unfold winnerCount
    unfold matchCount at hone
    refine le_trans (List.countP_mono_left ?_) hone
    intro q hq hw
    have := hall _ (key q hq hw)
    simpa using this
  · intro stub rt1 bytes bn h0 h1
    rw [(confirmBidRecord_fields lib stub rt1 bytes bn STATE_BID_ACCEPTED).2.1,
      confirmLoop_quotations, winnerCount_markWinner bn _ h0, h1]

/-- Witness for C11: after create, one accepted bid on number 7 and a payment
status change on `APP-1`, the stored record has exactly one winner. -/
theorem C11_winners_witness :
    "APP-1" ≠ "" ∧ stub0.state "APP-1" = none ∧
    (∀ i ∈ app1Trace, i.args.head? = some "APP-1") ∧
    (runTrace exampleLib (stub0.state, rt0) app1Trace).1 "APP-1" = some app1Final ∧
    winnerCount (exampleLib.Unmarshal app1Final).Quotations ≤ 1 ∧
    app1Final.Quotations.map (fun q => q.IsWinningBid) = [true, false, false, false] := by
  have hon : ∀ i ∈ app1Trace, i.args.head? = some "APP-1" := by
    intro i hi
    simp only [app1Trace, List.mem_cons, List.mem_singleton, List.not_mem_nil, or_false] at hi
    rcases hi with rfl | rfl | rfl <;> rfl
  have hb : (runTrace exampleLib (stub0.state, rt0) app1Trace).1 "APP-1" = some app1Final := rfl
  exact ⟨by decide, rfl, hon, hb,
    (C11_winners exampleLib (fun _ => rfl) "APP-1" (by decide) stub0.state rt0 rfl app1Trace
      hon app1Final hb).2.2.1 7 (by decide) (by decide),
    by decide⟩

theorem GenerateRepaymentSchedule_length (q : BiddingDetails) :
    (GenerateRepaymentSchedule q).length = (wrapInt (q.Tenure * 12)).toNat := by
  rw [GenerateRepaymentSchedule_eq, List.length_map, List.length_range]

theorem GenerateRepaymentSchedule_demanded (q : BiddingDetails) :
    ∀ p ∈ GenerateRepaymentSchedule q, p.RepaymentStatus = STATE_DEMANDED := by
  intro p hp
  rw [GenerateRepaymentSchedule_eq] at hp
  obtain ⟨j, _, rfl⟩ := List.mem_map.mp hp
  rfl

theorem changeLoop_length {β : Type} (stub : Stub β) (n r : Int) (sched : List PaymentDetail)
    (rt : Runtime) : (changeLoop stub n r sched rt).1.length = sched.length := by
  by_cases h : ∃ p ∈ sched, p.InstallmentNumber = n
  · obtain ⟨pre, p, post, he, hpre, hp⟩ := exists_first_installment n sched h
    rw [he, changeLoop_split stub n r pre p post rt hpre hp]
    simp
  · rw [changeLoop_nomatch stub n r sched rt (fun p hp hn => h ⟨p, hp, hn⟩)]

theorem confirmUpdate_schedule (a : LoanApplication) (bn s : Int) (rt : Runtime) :
    (confirmUpdate a bn s rt).1.RepaymentSchedule =
      (if s = STATE_BID_ACCEPTED then
        match lastMatch bn a.Quotations with
        | some w => GenerateRepaymentSchedule { w with IsWinningBid := true }
        | none => a.RepaymentSchedule
       else a.RepaymentSchedule) := by
  unfold confirmUpdate
  by_cases hs : s = STATE_BID_ACCEPTED
  · rw [if_pos hs, hs]
    exact confirmLoop_schedule bn a.Quotations _
  · rw [if_neg hs]
    simp only [confirmLoop_noop bn s a.Quotations _ (Or.inr hs)]

theorem lastMatch_mem (bn : Int) (qs : List BiddingDetails) (w : BiddingDetails)
    (h : lastMatch bn qs = some w) : w ∈ qs ∧ w.BiddingNumber = bn := by
  unfold lastMatch at h
  exact ⟨List.mem_reverse.mp (List.mem_of_find?_eq_some h), by simpa using List.find?_some h⟩

/-- C17 as stated fails: on `APP-1`, after an accepted bid and installment 1
marked `MISSED`, a second `ConfirmBid` with the same number and status
`BID_ACCEPTED` stores a freshly generated schedule in which installment 1 is
`DEMANDED` again. -/
theorem C17_counterexample :
    scheduleStatusesAfter [call "CreateLoanApplication" app1Args,
      call "ConfirmBid" ["APP-1", "7", "2"],
      call "ChangePaymentStatus" ["APP-1", "", "1", "3"]] =
        some (STATE_MISSED :: List.replicate 59 STATE_DEMANDED) ∧
    scheduleStatusesAfter [call "CreateLoanApplication" app1Args,
      call "ConfirmBid" ["APP-1", "7", "2"],
      call "ChangePaymentStatus" ["APP-1", "", "1", "3"],
      call "ConfirmBid" ["APP-1", "7", "2"]] = some (List.replicate 60 STATE_DEMANDED) := by
  refine ⟨by decide, by decide⟩

/-- C17 (amended): the repayment schedule is generated by every `ConfirmBid`
call with status `BID_ACCEPTED` and a bidding number carried by a quotation:
such a call replaces the schedule by a freshly generated one, every
installment `DEMANDED`. No other call replaces it: `ConfirmBid` with another
status or a number no quotation carries returns it as stored, and
`ChangePaymentStatus` keeps its length. In every record stored under `k` after
a sequence of invocations on `k` starting from a ledger without `k` (codec
decoding what it encodes), all quotations have the same tenure and the
schedule is empty or has the length generated for that tenure. -/
theorem C17_schedule_lifetime {β : Type} (lib : Lib β)
    (hrt : ∀ a, lib.Unmarshal (lib.Marshal a) = a)
    (k : String) (hk : k ≠ "") (ledger : String → Option β) (rt : Runtime)
    (hfresh : ledger k = none) (tr : List Invocation)
    (hon : ∀ i ∈ tr, i.args.head? = some k) (b : β)
    (hb : (runTrace lib (ledger, rt) tr).1 k = some b) :
    (∀ q1 ∈ (lib.Unmarshal b).Quotations, ∀ q2 ∈ (lib.Unmarshal b).Quotations,
      q1.Tenure = q2.Tenure) ∧
    ((lib.Unmarshal b).RepaymentSchedule = [] ∨
      ∀ q ∈ (lib.Unmarshal b).Quotations,
        (lib.Unmarshal b).RepaymentSchedule.length = (wrapInt (q.Tenure * 12)).toNat) ∧
    (∀ (stub : Stub β) (rt1 : Runtime) (bytes : Option β) (n r : Int),
      (changePaymentStatusRecord lib stub rt1 bytes n r).1.RepaymentSchedule.length =
        (lib.decode bytes).RepaymentSchedule.length) ∧
    (∀ (stub : Stub β) (rt1 : Runtime) (bytes : Option β) (bn s : Int),
      (matchCount bn (lib.decode bytes).Quotations = 0 ∨ s ≠ STATE_BID_ACCEPTED) →
      (confirmBidRecord lib stub rt1 bytes bn s).1.RepaymentSchedule =
        (lib.decode bytes).RepaymentSchedule) ∧
    (∀ (stub : Stub β) (rt1 : Runtime) (bytes : Option β) (bn : Int) (w : BiddingDetails),
      lastMatch bn (lib.decode bytes).Quotations = some w →
      (confirmBidRecord lib stub rt1 bytes bn STATE_BID_ACCEPTED).1.RepaymentSchedule =
        GenerateRepaymentSchedule w ∧
      ∀ p ∈ (confirmBidRecord lib stub rt1 bytes bn STATE_BID_ACCEPTED).1.RepaymentSchedule,
        p.RepaymentStatus = STATE_DEMANDED) := by
  have key := runTrace_inv lib hrt k hk
    (fun a => (∀ q1 ∈ a.Quotations, ∀ q2 ∈ a.Quotations, q1.Tenure = q2.Tenure) ∧
      (a.RepaymentSchedule = [] ∨
        ∀ q ∈ a.Quotations, a.RepaymentSchedule.length = (wrapInt (q.Tenure * 12)).toNat))
    (fun _ _ => True) ?_ ?_ ?_ ?_ ?_ tr (ledger, rt) hon ?_ ?_ b hb
  · refine ⟨key.2.1, key.2.2, ?_, ?_, ?_⟩
    · intro stub rt1 bytes n r
      rw [(changePaymentStatusRecord_fields lib stub rt1 bytes n r).1, changeLoop_length]
    · intro stub rt1 bytes bn s h
      rw [(confirmBidRecord_fields lib stub rt1 bytes bn s).2.2.2.1,
        confirmLoop_noop bn s _ _ h]
    · intro stub rt1 bytes bn w hw
      have hs : (confirmBidRecord lib stub rt1 bytes bn STATE_BID_ACCEPTED).1.RepaymentSchedule =
          GenerateRepaymentSchedule w := by
        rw [(confirmBidRecord_fields lib stub rt1 bytes bn STATE_BID_ACCEPTED).2.2.2.1,
          confirmLoop_schedule, hw]
        exact GenerateRepaymentSchedule_flag w true
      refine ⟨hs, ?_⟩
      rw [hs]
      exact GenerateRepaymentSchedule_demanded w
  · intro a t h
    exact h
  · intro a h hsched
    refine ⟨?_, Or.inl hsched⟩
    intro q1 hq1
    rw [h] at hq1
    cases hq1
  · intro a p rt1 rt2 rt3 rt4 h hsched
    refine ⟨?_, Or.inl hsched⟩
    have e1 : GetQuoteFromLender1 = lenderQuote 0 := rfl
    have e2 : GetQuoteFromLender2 = lenderQuote 1 := rfl
    have e3 : GetQuoteFromLender3 = lenderQuote 2 := rfl
    have e4 : GetQuoteFromLender4 = lenderQuote 3 := rfl
    rw [e1, e2, e3, e4] at h
    have ht : ∀ q ∈ a.Quotations, q.Tenure = (if Eligible p then p.Tenure else 0) := by
      intro q hq
      rw [h] at hq
      simp only [List.mem_cons, List.mem_singleton, List.not_mem_nil, or_false] at hq
      rcases hq with rfl | rfl | rfl | rfl <;> exact lenderQuote_tenure _ _ _
    intro q1 hq1 q2 hq2
    rw [ht q1 hq1, ht q2 hq2]
  · intro a bn s rt1 _ h
    have hquot : (confirmUpdate a bn s rt1).1.Quotations =
        if s = STATE_BID_ACCEPTED then a.Quotations.map (markWinner bn) else a.Quotations :=
      confirmLoop_quotations_any bn s a.Quotations _
    have hten : ∀ q ∈ (confirmUpdate a bn s rt1).1.Quotations,
        ∃ q0 ∈ a.Quotations, q.Tenure = q0.Tenure := by
      intro q hq
      rw [hquot] at hq
      split_ifs at hq
      · obtain ⟨q0, hq0, rfl⟩ := List.mem_map.mp hq
        refine ⟨q0, hq0, ?_⟩
        unfold markWinner
        split_ifs <;> rfl
      · exact ⟨q, hq, rfl⟩
    refine ⟨?_, ?_⟩
    · intro q1 hq1 q2 hq2
      obtain ⟨x1, hx1, e1⟩ := hten q1 hq1
      obtain ⟨x2, hx2, e2⟩ := hten q2 hq2
      rw [e1, e2]
      exact h.1 x1 hx1 x2 hx2
    · rw [confirmUpdate_schedule]
      by_cases hs : s = STATE_BID_ACCEPTED
      · rw [if_pos hs]
        cases hl : lastMatch bn a.Quotations with
        | none =>
          simp only []
          rcases h.2 with h2 | h2
          · exact Or.inl h2
          · right
            intro q hq
            obtain ⟨x, hx, e⟩ := hten q hq
            rw [e]
            exact h2 x hx
        | some w =>
          simp only []
          right
          intro q hq
          obtain ⟨x, hx, e⟩ := hten q hq
          rw [GenerateRepaymentSchedule_flag, GenerateRepaymentSchedule_length, e,
            h.1 x hx w (lastMatch_mem bn _ w hl).1]
      · rw [if_neg hs]
        rcases h.2 with h2 | h2
        · exact Or.inl h2
        · right
          intro q hq
          obtain ⟨x, hx, e⟩ := hten q hq
          rw [e]
          exact h2 x hx
  · intro stub a n r rt1 h
    have hq : (changeUpdate stub a n r rt1).1.Quotations = a.Quotations := by
      unfold changeUpdate
      rw [CheckLoanDefaultStatus_eq]
    have hsch : (changeUpdate stub a n r rt1).1.RepaymentSchedule =
        (changeLoop stub n r a.RepaymentSchedule rt1).1 := by
      unfold changeUpdate
      rw [CheckLoanDefaultStatus_eq]
    rw [hq, hsch]
    refine ⟨h.1, ?_⟩
    rcases h.2 with h2 | h2
    · left
      rw [h2]
      rfl
    · right
      intro q hq1
      rw [changeLoop_length]
      exact h2 q hq1
  · intro i _ a0 a1 a2 tail _ _
    trivial
  · intro b0 hb0
    rw [show (ledger, rt).1 k = ledger k from rfl, hfresh] at hb0
    cases hb0

/-- Witness for C17: after create, an accepted bid and a payment status
change on `APP-1` (tenure 5), the stored schedule has 60 installments and
the four quotations have the same tenure. -/
theorem C17_schedule_lifetime_witness :
    "APP-1" ≠ "" ∧ stub0.state "APP-1" = none ∧
    (∀ i ∈ app1Trace, i.args.head? = some "APP-1") ∧
    (runTrace exampleLib (stub0.state, rt0) app1Trace).1 "APP-1" = some app1Final ∧
    (∀ q1 ∈ (exampleLib.Unmarshal app1Final).Quotations,
      ∀ q2 ∈ (exampleLib.Unmarshal app1Final).Quotations, q1.Tenure = q2.Tenure) ∧
    app1Final.RepaymentSchedule.length = 60 ∧
    app1Final.Quotations.map (fun q => q.Tenure) = [5, 5, 5, 5] := by
  have hon : ∀ i ∈ app1Trace, i.args.head? = some "APP-1" := by
    intro i hi
    simp only [app1Trace, List.mem_cons, List.mem_singleton, List.not_mem_nil, or_false] at hi
    rcases hi with rfl | rfl | rfl <;> rfl
  have hb : (runTrace exampleLib (stub0.state, rt0) app1Trace).1 "APP-1" = some app1Final := rfl
  exact ⟨by decide, rfl, hon, hb,
    (C17_schedule_lifetime exampleLib (fun _ => rfl) "APP-1" (by decide) stub0.state rt0 rfl
      app1Trace hon app1Final hb).1,
    by decide, by decide⟩

/-! ## Reading back: claims C21 and C22 -/

/-- C21: for every ledger and application number, `GetLoanApplicationDetails`
returns exactly the bytes stored under that number and no error when a record
is present, and the not-found error when none is present; it is reached
through `Query`, which hands back ledger and runtime as it received them. -/
theorem C21_read {β : Type} (stub : Stub β) (k : String) :
    (∀ bytes : β, stub.state k = some bytes →
      GetLoanApplicationDetails stub k = Outcome.ret (some bytes) none) ∧
    (stub.state k = none →
      GetLoanApplicationDetails stub k =
        Outcome.ret none (some "Could not find application")) ∧
    (∀ (rt : Runtime) (rest : List String),
      Query stub rt "GetApplicationDetails" (k :: rest) =
        (GetLoanApplicationDetails stub k, stub, rt)) := by
  refine ⟨?_, ?_, ?_⟩
  · intro bytes h
    simp only [GetLoanApplicationDetails, Stub.GetState, h]
  · intro h
    simp only [GetLoanApplicationDetails, Stub.GetState, h]
  · intro rt rest
    simp [Query]

/-- Witness for C21: the record stored under `APP-1` is read back as it is,
and `APP-9` on the empty ledger is not found. -/
theorem C21_read_witness :
    afterApp1.1.state "APP-1" = some app1Record ∧
    GetLoanApplicationDetails afterApp1.1 "APP-1" = Outcome.ret (some app1Record) none ∧
    stub0.state "APP-9" = none ∧
    GetLoanApplicationDetails stub0 "APP-9" =
      Outcome.ret none (some "Could not find application") :=
  ⟨rfl, (C21_read afterApp1.1 "APP-1").1 app1Record rfl, rfl,
    (C21_read stub0 "APP-9").2.1 rfl⟩

theorem changeLoop_repaymentDate {β : Type} (stub : Stub β) (n r : Int)
    (sched : List PaymentDetail) (rt : Runtime)
    (h : ∀ p ∈ sched, p.RepaymentDate = "") :
    ∀ p ∈ (changeLoop stub n r sched rt).1, p.RepaymentDate = "" := by
  by_cases hex : ∃ p ∈ sched, p.InstallmentNumber = n
  · obtain ⟨pre, p0, post, he, hpre, hp0⟩ := exists_first_installment n sched hex
    rw [he, changeLoop_split stub n r pre p0 post rt hpre hp0]
    intro p hp
    rcases List.mem_append.mp hp with hp | hp
    · exact h p (by rw [he]; exact List.mem_append_left _ hp)
    · rcases List.mem_cons.mp hp with rfl | hp
      · exact h p0 (by rw [he]; exact List.mem_append_right _ (List.mem_cons_self _ _))
      · exact h p (by rw [he]; exact List.mem_append_right _ (List.mem_cons_of_mem _ hp))
  · rw [changeLoop_nomatch stub n r sched rt (fun p hp hn => hex ⟨p, hp, hn⟩)]
    exact h

theorem GenerateRepaymentSchedule_repaymentDate (q : BiddingDetails) :
    ∀ p ∈ GenerateRepaymentSchedule q, p.RepaymentDate = "" := by
  intro p hp
  rw [GenerateRepaymentSchedule_eq] at hp
  obtain ⟨j, _, rfl⟩ := List.mem_map.mp hp
  rfl

/-- C23 as stated fails: on `APP-1`, after create and an accepted bid,
`ChangePaymentStatus` changes installment 1 from `DEMANDED` to `MISSED`, and
the repayment date of that installment is still empty. -/
theorem C23_counterexample :
    (((runTrace exampleLib (stub0.state, rt0)
        [call "CreateLoanApplication" app1Args, call "ConfirmBid" ["APP-1", "7", "2"]]).1
      "APP-1").getD {}).RepaymentSchedule.head?.map
        (fun p => (p.InstallmentNumber, p.RepaymentStatus, p.RepaymentDate)) =
      some (1, STATE_DEMANDED, "") ∧
    app1Final.RepaymentSchedule.head?.map
        (fun p => (p.InstallmentNumber, p.RepaymentStatus, p.RepaymentDate)) =
      some (1, STATE_MISSED, "") ∧
    app1Final.RepaymentSchedule.head?.map (fun p => p.Metadata.TransactionId) = some "tx" := by
  refine ⟨by decide, by decide, by decide⟩

/-- C23 (amended): when `ChangePaymentStatus` changes the status of an
installment (the first one carrying the given number), it leaves the
repayment date of that installment as it was and records the change in its
metadata: transaction id and timestamp of the invocation and the current
time as transaction date. In every record stored under `k` after a sequence
of invocations on `k` starting from a ledger without `k` (codec decoding what
it encodes), the repayment date of every installment is empty. -/
theorem C23_repayment_date {β : Type} (lib : Lib β)
    (hrt : ∀ a, lib.Unmarshal (lib.Marshal a) = a)
    (k : String) (hk : k ≠ "") (ledger : String → Option β) (rt : Runtime)
    (hfresh : ledger k = none) (tr : List Invocation)
    (hon : ∀ i ∈ tr, i.args.head? = some k) (b : β)
    (hb : (runTrace lib (ledger, rt) tr).1 k = some b) :
    (∀ p ∈ (lib.Unmarshal b).RepaymentSchedule, p.RepaymentDate = "") ∧
    (∀ (stub : Stub β) (rt1 : Runtime) (bytes : Option β) (n r : Int)
        (pre : List PaymentDetail) (p : PaymentDetail) (post : List PaymentDetail),
      (lib.decode bytes).RepaymentSchedule = pre ++ p :: post →
      (∀ x ∈ pre, x.InstallmentNumber ≠ n) → p.InstallmentNumber = n →
      (changePaymentStatusRecord lib stub rt1 bytes n r).1.RepaymentSchedule =
        pre ++ stampInstallment stub rt1.Now.1 r p :: post ∧
      (stampInstallment stub rt1.Now.1 r p).RepaymentStatus = r ∧
      (stampInstallment stub rt1.Now.1 r p).RepaymentDate = p.RepaymentDate ∧
      (stampInstallment stub rt1.Now.1 r p).Metadata.TransactionId = stub.TxID ∧
      (stampInstallment stub rt1.Now.1 r p).Metadata.TransactionTimestamp =
        stub.TxTimestamp.getD "" ∧
      (stampInstallment stub rt1.Now.1 r p).Metadata.TransactionDate = rt1.Now.1) := by
  constructor
  · refine (runTrace_inv lib hrt k hk
      (fun a => ∀ p ∈ a.RepaymentSchedule, p.RepaymentDate = "") (fun _ _ => True)
      ?_ ?_ ?_ ?_ ?_ tr (ledger, rt) hon ?_ ?_ b hb).2
    · intro a t h
      exact h
    · intro a _ hs p hp
      rw [hs] at hp
      cases hp
    · intro a p0 rt1 rt2 rt3 rt4 _ hs p hp
      rw [hs] at hp
      cases hp
    · intro a bn s rt1 _ h p hp
      rw [confirmUpdate_schedule] at hp
      by_cases hs : s = STATE_BID_ACCEPTED
      · rw [if_pos hs] at hp
        cases hl : lastMatch bn a.Quotations with
        | none =>
          rw [hl] at hp
          exact h p hp
        | some w =>
          rw [hl] at hp
          exact GenerateRepaymentSchedule_repaymentDate _ p hp
      · rw [if_neg hs] at hp
        exact h p hp
    · intro stub a n r rt1 h p hp
      have hsch : (changeUpdate stub a n r rt1).1.RepaymentSchedule =
          (changeLoop stub n r a.RepaymentSchedule rt1).1 := by
        unfold changeUpdate
        rw [CheckLoanDefaultStatus_eq]
      rw [hsch] at hp
      exact changeLoop_repaymentDate stub n r a.RepaymentSchedule rt1 h p hp
    · intro i _ a0 a1 a2 tail _ _
      trivial
    · intro b0 hb0
      rw [show (ledger, rt).1 k = ledger k from rfl, hfresh] at hb0
      cases hb0
  · intro stub rt1 bytes n r pre p post he hpre hp
    refine ⟨?_, rfl, rfl, rfl, rfl, rfl⟩
    rw [(changePaymentStatusRecord_fields lib stub rt1 bytes n r).1, he,
      changeLoop_split stub n r pre p post rt1 hpre hp]

/-- Witness for C23: in the record stored under `APP-1` after create, an
accepted bid and installment 1 marked `MISSED`, every installment has an
empty repayment date. -/
theorem C23_repayment_date_witness :
    "APP-1" ≠ "" ∧ stub0.state "APP-1" = none ∧
    (∀ i ∈ app1Trace, i.args.head? = some "APP-1") ∧
    (runTrace exampleLib (stub0.state, rt0) app1Trace).1 "APP-1" = some app1Final ∧
    (∀ p ∈ (exampleLib.Unmarshal app1Final).RepaymentSchedule, p.RepaymentDate = "") ∧
    app1Final.RepaymentSchedule.length = 60 := by
  have hon : ∀ i ∈ app1Trace, i.args.head? = some "APP-1" := by
    intro i hi
    simp only [app1Trace, List.mem_cons, List.mem_singleton, List.not_mem_nil, or_false] at hi
    rcases hi with rfl | rfl | rfl <;> rfl
  have hb : (runTrace exampleLib (stub0.state, rt0) app1Trace).1 "APP-1" = some app1Final := rfl
  exact ⟨by decide, rfl, hon, hb,
    (C23_repayment_date exampleLib (fun _ => rfl) "APP-1" (by decide) stub0.state rt0 rfl
      app1Trace hon app1Final hb).1,
    by decide⟩

theorem isBinary32_quarters (n : Nat) (h : n ≤ 26) : isBinary32 ((n : ℚ) / 4) := by
  refine ⟨(n : Int), -2, ?_, by norm_num, by norm_num, ?_⟩
  · rw [abs_of_nonneg (Int.natCast_nonneg n)]
    have : (n : Int) ≤ 26 := by exact_mod_cast h
    omega
  · rw [zpow_neg, zpow_ofNat]
    push_cast
    ring

theorem isBinary64_of_isBinary32 (q : ℚ) (h : isBinary32 q) : isBinary64 q := by
  obtain ⟨m, e, hm, h1, h2, hq⟩ := h
  exact ⟨m, e, lt_trans hm (by norm_num), by omega, by omega, hq⟩

theorem delta_values (s a : Int) (m : ℚ) :
    (creditDelta s = 0 ∨ creditDelta s = 1 / 4 ∨ creditDelta s = 1 / 2) ∧
    (ageDelta a = 0 ∨ ageDelta a = 1 / 4 ∨ ageDelta a = 1 / 2) ∧
    (incomeDelta m = 0 ∨ incomeDelta m = 1 / 4 ∨ incomeDelta m = 1 / 2) := by
  unfold creditDelta ageDelta incomeDelta
  refine ⟨?_, ?_, ?_⟩ <;> split_ifs <;> simp

theorem rate_mem_rateValues (s a : Int) (m : ℚ) :
    5 + creditDelta s + ageDelta a + incomeDelta m ∈ rateValues := by
  obtain ⟨hc, ha, hi⟩ := delta_values s a m
  unfold rateValues
  rcases hc with hc | hc | hc <;> rcases ha with ha | ha | ha <;>
    rcases hi with hi | hi | hi <;> rw [hc, ha, hi] <;> norm_num

theorem quarter_facts (r : ℚ → ℚ) (h : ∀ n : Nat, n ≤ 26 → r ((n : ℚ) / 4) = (n : ℚ) / 4) :
    (r 0 = 0 ∧ r (1 / 4) = 1 / 4 ∧ r (1 / 2) = 1 / 2 ∧ r (3 / 4) = 3 / 4 ∧ r 1 = 1 ∧
      r (5 / 4) = 5 / 4 ∧ r (3 / 2) = 3 / 2) ∧
    (r 5 = 5 ∧ r (21 / 4) = 21 / 4 ∧ r (11 / 2) = 11 / 2 ∧ r (23 / 4) = 23 / 4 ∧ r 6 = 6 ∧
      r (25 / 4) = 25 / 4 ∧ r (13 / 2) = 13 / 2) := by
  have h0 := h 0 (by norm_num)
  have h1 := h 1 (by norm_num)
  have h2 := h 2 (by norm_num)
  have h3 := h 3 (by norm_num)
  have h4 := h 4 (by norm_num)
  have h5 := h 5 (by norm_num)
  have h6 := h 6 (by norm_num)
  have h20 := h 20 (by norm_num)
  have h21 := h 21 (by norm_num)
  have h22 := h 22 (by norm_num)
  have h23 := h 23 (by norm_num)
  have h24 := h 24 (by norm_num)
  have h25 := h 25 (by norm_num)
  have h26 := h 26 (by norm_num)
  norm_num at h0 h1 h2 h3 h4 h5 h6 h20 h21 h22 h23 h24 h25 h26
  exact ⟨⟨h0, h1, h2, h3, h4, h5, h6⟩, ⟨h20, h21, h22, h23, h24, h25, h26⟩⟩

theorem credit_step (r : ℚ → ℚ) (s : Int)
    (e0 : r 0 = 0) (e1 : r (1 / 4) = 1 / 4) (e2 : r (1 / 2) = 1 / 2) :
    (if s < 700 ∧ s > 500 then r (r 0 + r (1 / 4))
      else if s < 500 ∧ s > 300 then r (r 0 + r (1 / 2)) else r 0) = creditDelta s := by
  rw [e0, e1, e2, zero_add, zero_add, e1, e2]
  unfold creditDelta
  split_ifs <;> first | rfl | omega

theorem age_step (r : ℚ → ℚ) (a : Int) (d : ℚ) (hd : d = 0 ∨ d = 1 / 4 ∨ d = 1 / 2)
    (e1 : r (1 / 4) = 1 / 4) (e2 : r (1 / 2) = 1 / 2) (e3 : r (3 / 4) = 3 / 4)
    (e4 : r 1 = 1) :
    (if a > 30 ∧ a < 50 then r (d + r (1 / 4)) else if a > 50 then r (d + r (1 / 2)) else d) =
      d + ageDelta a := by
  have k1 : r (d + 1 / 4) = d + 1 / 4 := by
    rcases hd with rfl | rfl | rfl
    · rw [zero_add, e1]
    · rw [show (1 / 4 : ℚ) + 1 / 4 = 1 / 2 by norm_num, e2]
    · rw [show (1 / 2 : ℚ) + 1 / 4 = 3 / 4 by norm_num, e3]
  have k2 : r (d + 1 / 2) = d + 1 / 2 := by
    rcases hd with rfl | rfl | rfl
    · rw [zero_add, e2]
    · rw [show (1 / 4 : ℚ) + 1 / 2 = 3 / 4 by norm_num, e3]
    · rw [show (1 / 2 : ℚ) + 1 / 2 = 1 by norm_num, e4]
  rw [e1, e2, k1, k2]
  unfold ageDelta
  simp only [gt_iff_lt]
  split_ifs <;> first | rfl | simp

theorem income_step (r : ℚ → ℚ) (m d : ℚ)
    (hd : d = 0 ∨ d = 1 / 4 ∨ d = 1 / 2 ∨ d = 3 / 4 ∨ d = 1)
    (e1 : r (1 / 4) = 1 / 4) (e2 : r (1 / 2) = 1 / 2) (e3 : r (3 / 4) = 3 / 4)
    (e4 : r 1 = 1) (e5 : r (5 / 4) = 5 / 4) (e6 : r (3 / 2) = 3 / 2) :
    (if m > 1000 ∧ m < 3000 then r (d + r (1 / 2))
      else if m > 3000 then r (d + r (1 / 4)) else d) = d + incomeDelta m := by
  have k1 : r (d + 1 / 4) = d + 1 / 4 := by
    rcases hd with rfl | rfl | rfl | rfl | rfl
    · rw [zero_add, e1]
    · rw [show (1 / 4 : ℚ) + 1 / 4 = 1 / 2 by norm_num, e2]
    · rw [show (1 / 2 : ℚ) + 1 / 4 = 3 / 4 by norm_num, e3]
    · rw [show (3 / 4 : ℚ) + 1 / 4 = 1 by norm_num, e4]
    · rw [show (1 : ℚ) + 1 / 4 = 5 / 4 by norm_num, e5]
  have k2 : r (d + 1 / 2) = d + 1 / 2 := by
    rcases hd with rfl | rfl | rfl | rfl | rfl
    · rw [zero_add, e2]
    · rw [show (1 / 4 : ℚ) + 1 / 2 = 3 / 4 by norm_num, e3]
    · rw [show (1 / 2 : ℚ) + 1 / 2 = 1 by norm_num, e4]
    · rw [show (3 / 4 : ℚ) + 1 / 2 = 5 / 4 by norm_num, e5]
    · rw [show (1 : ℚ) + 1 / 2 = 3 / 2 by norm_num, e6]
  rw [e1, e2, k1, k2]
  unfold incomeDelta
  simp only [gt_iff_lt]
  split_ifs <;> first | rfl | simp

theorem sum_two_values (c a : ℚ) (hc : c = 0 ∨ c = 1 / 4 ∨ c = 1 / 2)
    (ha : a = 0 ∨ a = 1 / 4 ∨ a = 1 / 2) :
    c + a = 0 ∨ c + a = 1 / 4 ∨ c + a = 1 / 2 ∨ c + a = 3 / 4 ∨ c + a = 1 := by
  rcases hc with rfl | rfl | rfl <;> rcases ha with rfl | rfl | rfl <;> norm_num

theorem final_step (r32 r64 : ℚ → ℚ) (x : ℚ) (hx : x ∈ rateValues)
    (g : r32 5 = 5 ∧ r32 (21 / 4) = 21 / 4 ∧ r32 (11 / 2) = 11 / 2 ∧ r32 (23 / 4) = 23 / 4 ∧
      r32 6 = 6 ∧ r32 (25 / 4) = 25 / 4 ∧ r32 (13 / 2) = 13 / 2)
    (d : r64 5 = 5 ∧ r64 (21 / 4) = 21 / 4 ∧ r64 (11 / 2) = 11 / 2 ∧ r64 (23 / 4) = 23 / 4 ∧
      r64 6 = 6 ∧ r64 (25 / 4) = 25 / 4 ∧ r64 (13 / 2) = 13 / 2) :
    r64 (r32 x) = x := by
  unfold rateValues at hx
  simp only [List.mem_cons, List.mem_singleton, List.not_mem_nil, or_false] at hx
  obtain ⟨g0, g1, g2, g3, g4, g5, g6⟩ := g
  obtain ⟨d0, d1, d2, d3, d4, d5, d6⟩ := d
  rcases hx with rfl | rfl | rfl | rfl | rfl | rfl | rfl
  · rw [g0, d0]
  · rw [g1, d1]
  · rw [g2, d2]
  · rw [g3, d3]
  · rw [g4, d4]
  · rw [g5, d5]
  · rw [g6, d6]

theorem finalRateFloat_exact (r32 r64 : ℚ → ℚ) (h32 : ∀ q, isBinary32 q → r32 q = q)
    (h64 : ∀ q, isBinary64 q → r64 q = q) (p : EvaluationParams) :
    finalRateFloat r32 r64 p =
      5 + creditDelta p.CreditScore + ageDelta p.Age + incomeDelta p.MonthlyIncome := by
  obtain ⟨⟨e0, e1, e2, e3, e4, e5, e6⟩, g⟩ :=
    quarter_facts r32 (fun n hn => h32 _ (isBinary32_quarters n hn))
  obtain ⟨_, d⟩ :=
    quarter_facts r64 (fun n hn => h64 _ (isBinary64_of_isBinary32 _ (isBinary32_quarters n hn)))
  obtain ⟨hc, ha, _⟩ := delta_values p.CreditScore p.Age p.MonthlyIncome
  unfold finalRateFloat
  simp only []
  rw [credit_step r32 p.CreditScore e0 e1 e2,
    age_step r32 p.Age _ hc e1 e2 e3 e4,
    income_step r32 p.MonthlyIncome _ (sum_two_values _ _ hc ha) e1 e2 e3 e4 e5 e6,
    g.1]
  have hx : 5 + (creditDelta p.CreditScore + ageDelta p.Age + incomeDelta p.MonthlyIncome) ∈
      rateValues := by
    have := rate_mem_rateValues p.CreditScore p.Age p.MonthlyIncome
    rw [add_assoc, add_assoc] at this
    rw [add_assoc]
    exact this
  rw [final_step r32 r64 _ hx g d]
  ring

theorem rateValues_binary32 (x : ℚ) (hx : x ∈ rateValues) : isBinary32 x := by
  unfold rateValues at hx
  simp only [List.mem_cons, List.mem_singleton, List.not_mem_nil, or_false] at hx
  rcases hx with rfl | rfl | rfl | rfl | rfl | rfl | rfl
  · have := isBinary32_quarters 20 (by norm_num)
    norm_num at this
    exact this
  · have := isBinary32_quarters 21 (by norm_num)
    norm_num at this
    exact this
  · have := isBinary32_quarters 22 (by norm_num)
    norm_num at this
    exact this
  · have := isBinary32_quarters 23 (by norm_num)
    norm_num at this
    exact this
  · have := isBinary32_quarters 24 (by norm_num)
    norm_num at this
    exact this
  · have := isBinary32_quarters 25 (by norm_num)
    norm_num at this
    exact this
  · have := isBinary32_quarters 26 (by norm_num)
    norm_num at this
    exact this

theorem dearApplicant_eligible : Eligible dearApplicant := by
  refine ⟨by decide, by decide, by decide, ?_⟩
  show (1000 : ℚ) ≤ 2000
  norm_num

theorem plainApplicant_eligible : Eligible plainApplicant := by
  refine ⟨by decide, by decide, by decide, ?_⟩
  show (1000 : ℚ) ≤ 3000
  norm_num

/-- C24: for every eligible applicant and each of the four lender quote
functions the quoted rate is one of 5.00, 5.25, 5.50, 5.75, 6.00, 6.25, 6.50;
5.00 is attained (score 700, age 30, income 3000) and so is 6.50 (score 400,
age 60, income 2000); and the computation carried out in `float32`, with any
rounding that leaves `float32` numbers as they are, followed by the
conversion to `float64`, gives that rate exactly, the rate being both a
`float32` and a `float64` number. -/
theorem C24_rate_values (k : Fin 4) (p : EvaluationParams) (rt : Runtime) (h : Eligible p) :
    (lenderQuote k p rt).1.InterestRate ∈ rateValues ∧
    5 ≤ (lenderQuote k p rt).1.InterestRate ∧ (lenderQuote k p rt).1.InterestRate ≤ 13 / 2 ∧
    (Eligible plainApplicant ∧ (lenderQuote k plainApplicant rt).1.InterestRate = 5) ∧
    (Eligible dearApplicant ∧ (lenderQuote k dearApplicant rt).1.InterestRate = 13 / 2) ∧
    (∀ r32 r64 : ℚ → ℚ, (∀ q, isBinary32 q → r32 q = q) → (∀ q, isBinary64 q → r64 q = q) →
      finalRateFloat r32 r64 p = (lenderQuote k p rt).1.InterestRate) ∧
    isBinary32 (lenderQuote k p rt).1.InterestRate ∧
    isBinary64 (lenderQuote k p rt).1.InterestRate := by
  have hr : (lenderQuote k p rt).1.InterestRate =
      5 + creditDelta p.CreditScore + ageDelta p.Age + incomeDelta p.MonthlyIncome := by
    rw [lenderQuote_rate, if_pos h]
  have hmem : (lenderQuote k p rt).1.InterestRate ∈ rateValues := by
    rw [hr]
    exact rate_mem_rateValues _ _ _
  have hb := rateValues_binary32 _ hmem
  have hbounds : ∀ x ∈ rateValues, (5 : ℚ) ≤ x ∧ x ≤ 13 / 2 := by
    intro x hx
    unfold rateValues at hx
    simp only [List.mem_cons, List.mem_singleton, List.not_mem_nil, or_false] at hx
    rcases hx with rfl | rfl | rfl | rfl | rfl | rfl | rfl <;> norm_num
  refine ⟨hmem, (hbounds _ hmem).1, (hbounds _ hmem).2, ⟨plainApplicant_eligible, ?_⟩,
    ⟨dearApplicant_eligible, ?_⟩, ?_, hb, isBinary64_of_isBinary32 _ hb⟩
  · rw [lenderQuote_rate, if_pos plainApplicant_eligible]
    norm_num [creditDelta, ageDelta, incomeDelta, plainApplicant]
  · rw [lenderQuote_rate, if_pos dearApplicant_eligible]
    norm_num [creditDelta, ageDelta, incomeDelta, dearApplicant]
  · intro r32 r64 h32 h64
    rw [finalRateFloat_exact r32 r64 h32 h64, hr]

/-- Witness for C24: score 400, age 60, income 2000 is eligible and is quoted
6.50 by lender 1, a value of the list, also when computed with roundings. -/
theorem C24_rate_values_witness :
    Eligible dearApplicant ∧
    (lenderQuote 0 dearApplicant rt0).1.InterestRate ∈ rateValues ∧
    (lenderQuote 0 dearApplicant rt0).1.InterestRate = 13 / 2 ∧
    finalRateFloat (fun q => q) (fun q => q) dearApplicant =
      (lenderQuote 0 dearApplicant rt0).1.InterestRate :=
  ⟨dearApplicant_eligible,
    (C24_rate_values 0 dearApplicant rt0 dearApplicant_eligible).1,
    (C24_rate_values 0 dearApplicant rt0 dearApplicant_eligible).2.2.2.2.1.2,
    (C24_rate_values 0 dearApplicant rt0 dearApplicant_eligible).2.2.2.2.2.1
      (fun q => q) (fun q => q) (fun _ _ => rfl) (fun _ _ => rfl)⟩

end SmartLending
